import Mathlib

/-!
Verification of the `tmail` terminal-mail core (config registry, delivery
engine, template codec, editing session, message validation) against its
natural-language specification.

Python strings are modelled as `List Char` (`Str`); Python's `str` methods
(`strip`, `split`, `lower`, `join`, `startswith`, `in`) are modelled by the
`py*` functions below.  `strip`/`lower` are modelled for the ASCII range,
which covers every string the programs build.  Effectful collaborators
(`subprocess.run`, the SMTP session, the filesystem, the external editor)
are modelled as explicit oracle parameters, so each source function becomes
a pure Lean function of its inputs and its environment.
-/

deriving instance DecidableEq for Except

namespace TMail

/-- Python `str` modelled as a list of characters. -/
abbrev Str := List Char

/-- Coerce a Lean string literal into the `Str` model. -/
def lit (s : String) : Str := s.data

/-- Python whitespace for `str.strip()` (ASCII range). -/
def isPySpace (c : Char) : Bool :=
  c = ' ' || c = '\t' || c = '\n' || c = '\r' || c.toNat = 11 || c.toNat = 12

/-- Python `str.lstrip()`. -/
def pyStripLeft (s : Str) : Str := s.dropWhile isPySpace

/-- Python `str.rstrip()`. -/
def pyStripRight (s : Str) : Str := (s.reverse.dropWhile isPySpace).reverse

/-- Python `str.strip()`. -/
def pyStrip (s : Str) : Str := pyStripRight (pyStripLeft s)

/-- Python `str.lower()` (ASCII model). -/
def pyLower (s : Str) : Str := s.map Char.toLower

/-- Python truthiness of an optional string (`None` and `""` are falsy). -/
def pyTruthy : Option Str → Bool
  | none => false
  | some v => v ≠ []

/-- Index of the first occurrence of `sep` in `s` (`str.find` for a
non-empty needle), `none` when absent. -/
def subFindIdx (sep : Str) (s : Str) : Option Nat :=
  if sep.isPrefixOf s then some 0
  else
    match s with
    | [] => none
    | _ :: t => (subFindIdx sep t).map (· + 1)

/-- Python `sep in s` for a substring test. -/
def hasSub (sep s : Str) : Bool := (subFindIdx sep s).isSome

/-- Python `s.split(sep)[0]`: the part before the first occurrence of
`sep` (all of `s` when `sep` is absent). -/
def takeBeforeSub (sep s : Str) : Str :=
  match subFindIdx sep s with
  | some i => s.take i
  | none => s

/-- The trailing-comment marker `"  #"` of the template format. -/
def noteMarker : Str := lit "  #"

/-- `value.split("  #")[0].strip()` guarded by `"  #" in value`, as in
`composer.parse_template`. -/
def stripNote (v : Str) : Str :=
  if hasSub noteMarker v then pyStrip (takeBeforeSub noteMarker v) else v

/-! ### Python `base64.b64decode(..., validate=False)` followed by
`bytes.decode("utf-8")`, as used by `SmtpServer.get_password`.

The base64 model follows CPython's `binascii.a2b_base64` in non-strict
mode: characters outside the alphabet are skipped, `=` padding terminates
the stream once a quad is completable, and a trailing partial quad is an
error.  The UTF-8 model is the strict decoder (overlong encodings,
surrogates and out-of-range code points rejected). -/

/-- Value of a base64 alphabet character, `none` for a non-alphabet
character (which non-strict decoding skips). -/
def b64Val (c : Char) : Option Nat :=
  if 'A' ≤ c && c ≤ 'Z' then some (c.toNat - 65)
  else if 'a' ≤ c && c ≤ 'z' then some (c.toNat - 97 + 26)
  else if '0' ≤ c && c ≤ '9' then some (c.toNat - 48 + 52)
  else if c = '+' then some 62
  else if c = '/' then some 63
  else none

/-- Core of `binascii.a2b_base64` (non-strict): state is the position in
the current quad, the carried bits, the running pad count and the output
accumulator. -/
def a2bBase64Go : Str → Nat → Nat → Nat → List Nat → Option (List Nat)
  | [], quadPos, _, _, acc => if quadPos = 0 then some acc.reverse else none
  | c :: rest, quadPos, leftchar, pads, acc =>
    if c = '=' then
      if 2 ≤ quadPos then
        if 4 ≤ quadPos + (pads + 1) then some acc.reverse
        else a2bBase64Go rest quadPos leftchar (pads + 1) acc
      else a2bBase64Go rest quadPos leftchar pads acc
    else
      match b64Val c with
      | none => a2bBase64Go rest quadPos leftchar pads acc
      | some v =>
        match quadPos with
        | 0 => a2bBase64Go rest 1 v 0 acc
        | 1 => a2bBase64Go rest 2 (v % 16) 0 ((leftchar * 4 + v / 16) :: acc)
        | 2 => a2bBase64Go rest 3 (v % 4) 0 ((leftchar * 16 + v / 4) :: acc)
        | _ => a2bBase64Go rest 0 0 0 ((leftchar * 64 + v) :: acc)

/-- `binascii.a2b_base64` (non-strict) on an ASCII string. -/
def a2bBase64 (s : Str) : Option (List Nat) := a2bBase64Go s 0 0 0 []

/-- Is `b` a UTF-8 continuation byte? -/
def utf8Cont (b : Nat) : Bool := 128 ≤ b && b < 192

/-- Strict UTF-8 decoding of a byte list (Python `bytes.decode("utf-8")`). -/
def utf8Decode : List Nat → Option Str
  | [] => some []
  | b :: rest =>
    if b < 128 then (utf8Decode rest).map (Char.ofNat b :: ·)
    else if b < 194 then none
    else if b < 224 then
      match rest with
      | b1 :: r =>
        if utf8Cont b1 then
          (utf8Decode r).map (Char.ofNat ((b - 192) * 64 + (b1 - 128)) :: ·)
        else none
      | [] => none
    else if b < 240 then
      match rest with
      | b1 :: b2 :: r =>
        if (if b = 224 then 160 else 128) ≤ b1 && b1 < (if b = 237 then 160 else 192)
            && utf8Cont b2 then
          (utf8Decode r).map
            (Char.ofNat ((b - 224) * 4096 + (b1 - 128) * 64 + (b2 - 128)) :: ·)
        else none
      | _ => none
    else if b < 245 then
      match rest with
      | b1 :: b2 :: b3 :: r =>
        if (if b = 240 then 144 else 128) ≤ b1 && b1 < (if b = 244 then 144 else 192)
            && utf8Cont b2 && utf8Cont b3 then
          (utf8Decode r).map
            (Char.ofNat ((b - 240) * 262144 + (b1 - 128) * 4096
              + (b2 - 128) * 64 + (b3 - 128)) :: ·)
        else none
      | _ => none
    else none

/-- `base64.b64decode(s).decode("utf-8")` as in `get_password`: non-ASCII
input makes `b64decode` itself fail, then decode and UTF-8-decode. -/
def pyB64DecodeUtf8 (s : Str) : Option Str :=
  if s.any (fun c => 128 ≤ c.toNat) then none
  else
    match a2bBase64 s with
    | none => none
    | some bytes => utf8Decode bytes

/-! ### `tmail.config`: data model and credential resolution -/

/-- `config.SmtpServer` (dataclass fields). -/
structure SmtpServer where
  name : Str
  host : Str
  ports : List Int
  user : Option Str
  password : Option Str
  password_cmd : Option Str
  password_encoding : Str
  use_tls : Bool
deriving DecidableEq, Repr

/-- Outcome of `subprocess.run(cmd, shell=True, capture_output=True,
text=True, timeout=t)`: either a timeout or a completed process with its
exit code, stdout and stderr. -/
inductive CmdOutcome where
  | timeout
  | finished (returncode : Int) (stdout : Str) (stderr : Str)
deriving DecidableEq, Repr

/-- Static-password half of `SmtpServer.get_password` (the code after the
`password_cmd` branch): absent/empty password yields `None`; base64
encoding decodes, with a decode failure raised as a `ConfigError`; any
other encoding passes the value through. -/
def SmtpServer.staticPassword (s : SmtpServer) : Except Str (Option Str) :=
  match s.password with
  | none => .ok none
  | some pw =>
    if pw = [] then .ok none
    else if pyLower s.password_encoding = lit "base64" then
      match pyB64DecodeUtf8 pw with
      | some p => .ok (some p)
      | none =>
        .error (lit "Failed to decode base64 password for SMTP \x27" ++ s.name ++ lit "\x27")
    else .ok (some pw)

/-- `SmtpServer.get_password`, with `subprocess.run` abstracted as the
oracle `exec : command → timeout → CmdOutcome`.  A configured (non-empty)
command is tried first with a 30-second timeout: timeout and non-zero exit
raise `ConfigError`, success returns the stripped stdout.  Otherwise the
static password is used. -/
def SmtpServer.get_password (exec : Str → Nat → CmdOutcome) (s : SmtpServer) :
    Except Str (Option Str) :=
  match s.password_cmd with
  | some cmd =>
    if cmd ≠ [] then
      match exec cmd 30 with
      | .timeout =>
        .error (lit "Password command timed out for SMTP \x27" ++ s.name ++ lit "\x27")
      | .finished rc out err =>
        if rc ≠ 0 then
          .error (lit "Password command failed for SMTP \x27" ++ s.name ++ lit "\x27: "
            ++ pyStrip err)
        else .ok (some (pyStrip out))
    else s.staticPassword
  | none => s.staticPassword

/-- `config.Identity` (dataclass fields, after `__post_init__`). -/
structure Identity where
  name : Str
  email : Str
  display_name : Str
  smtp_server : Str
  reply_to : List Str
deriving DecidableEq, Repr

/-- The `Identity` constructor including `__post_init__`: an empty
`reply_to` list defaults to `[email]`. -/
def mkIdentity (name email display_name smtp_server : Str) (reply_to : List Str) :
    Identity :=
  { name := name, email := email, display_name := display_name,
    smtp_server := smtp_server,
    reply_to := if reply_to = [] then [email] else reply_to }

/-- `config.Defaults`. -/
structure Defaults where
  retries : Nat
  interactive : Bool
  skip_confirmation : Bool
  default_identity : Option Str
deriving DecidableEq, Repr

/-- `config.Config`. -/
structure Config where
  defaults : Defaults
  smtp_servers : List SmtpServer
  identities : List Identity
deriving DecidableEq, Repr

/-- `Config.get_identity`: case-insensitive lookup by friendly name. -/
def Config.get_identity (c : Config) (name : Str) : Option Identity :=
  c.identities.find? (fun i => pyLower i.name = pyLower name)

/-- `Config.get_smtp_server`: case-insensitive lookup by friendly name. -/
def Config.get_smtp_server (c : Config) (name : Str) : Option SmtpServer :=
  c.smtp_servers.find? (fun s => pyLower s.name = pyLower name)

/-- `Config.get_default_identity`: the configured default if it resolves,
else the first identity, else `None`. -/
def Config.get_default_identity (c : Config) : Option Identity :=
  match c.defaults.default_identity with
  | some nm =>
    if nm ≠ [] then
      match c.get_identity nm with
      | some i => some i
      | none => c.identities.head?
    else c.identities.head?
  | none => c.identities.head?

/-! ### `tmail.config`: loading (`_parse_smtp_server`, `_parse_identity`,
`_parse_defaults`, `load_config`).

The TOML file reading and decoding is an external collaborator; loading is
modelled from the already-decoded data (`ConfigData` mirrors the dict
shapes the parse functions consume). -/

/-- The `ports` TOML value: either a bare int or a list of ints. -/
inductive PortsVal where
  | one (n : Int)
  | many (ns : List Int)
deriving DecidableEq, Repr

/-- Decoded dict for one `[[smtp_servers]]` TOML table. -/
structure SmtpServerData where
  name : Option Str
  host : Option Str
  ports : Option PortsVal
  user : Option Str
  password : Option Str
  password_cmd : Option Str
  password_encoding : Option Str
  use_tls : Option Bool
deriving DecidableEq, Repr

/-- Decoded dict for one `[[identities]]` TOML table. -/
structure IdentityData where
  name : Option Str
  email : Option Str
  display_name : Option Str
  smtp_server : Option Str
  reply_to : Option (List Str)
deriving DecidableEq, Repr

/-- Decoded dict for the `[defaults]` TOML table. -/
structure DefaultsData where
  retries : Option Nat
  interactive : Option Bool
  skip_confirmation : Option Bool
  default_identity : Option Str
deriving DecidableEq, Repr

/-- Decoded top-level TOML document. -/
structure ConfigData where
  defaults : DefaultsData
  smtp_servers : List SmtpServerData
  identities : List IdentityData
deriving DecidableEq, Repr

/-- `DEFAULT_SMTP_PORT`. -/
def DEFAULT_SMTP_PORT : Int := 587

/-- `DEFAULT_RETRIES`. -/
def DEFAULT_RETRIES : Nat := 1

/-- `config._parse_smtp_server`: requires truthy `name` and `host`, wraps
a bare-int `ports`, and rejects a `password_encoding` outside
`{plain, base64}` (case-insensitively).  The password value itself is not
inspected here. -/
def parse_smtp_server (d : SmtpServerData) : Except Str SmtpServer :=
  if ¬ pyTruthy d.name then .error (lit "SMTP server missing required \x27name\x27 field")
  else
    let name := d.name.getD []
    if ¬ pyTruthy d.host then
      .error (lit "SMTP server \x27" ++ name ++ lit "\x27 missing required \x27host\x27 field")
    else
      let ports :=
        match d.ports with
        | none => [DEFAULT_SMTP_PORT]
        | some (.one n) => [n]
        | some (.many ns) => ns
      let enc := d.password_encoding.getD (lit "plain")
      if pyLower enc ≠ lit "plain" ∧ pyLower enc ≠ lit "base64" then
        .error (lit "SMTP server \x27" ++ name ++ lit "\x27 has invalid password_encoding: "
          ++ enc ++ lit ". Must be \x27plain\x27 or \x27base64\x27")
      else
        .ok { name := name, host := d.host.getD [], ports := ports, user := d.user,
              password := d.password, password_cmd := d.password_cmd,
              password_encoding := enc, use_tls := d.use_tls.getD true }

/-- `config._parse_identity`: requires truthy `name`, `email` and
`smtp_server`, and the referenced server name must exist
(case-insensitively) among the already-parsed servers. -/
def parse_identity (d : IdentityData) (servers : List SmtpServer) : Except Str Identity :=
  if ¬ pyTruthy d.name then .error (lit "Identity missing required \x27name\x27 field")
  else
    let name := d.name.getD []
    if ¬ pyTruthy d.email then
      .error (lit "Identity \x27" ++ name ++ lit "\x27 missing required \x27email\x27 field")
    else if ¬ pyTruthy d.smtp_server then
      .error (lit "Identity \x27" ++ name ++ lit "\x27 missing required \x27smtp_server\x27 field")
    else
      let ref := d.smtp_server.getD []
      if (servers.map (fun s => pyLower s.name)).contains (pyLower ref) then
        .ok (mkIdentity name (d.email.getD []) (d.display_name.getD []) ref
          (d.reply_to.getD []))
      else
        .error (lit "Identity \x27" ++ name ++ lit "\x27 references unknown SMTP server \x27"
          ++ ref ++ lit "\x27")

/-- `config._parse_defaults`. -/
def parse_defaults (d : DefaultsData) : Defaults :=
  { retries := d.retries.getD DEFAULT_RETRIES,
    interactive := d.interactive.getD true,
    skip_confirmation := d.skip_confirmation.getD false,
    default_identity := d.default_identity }

/-- `config.load_config` from the decoded TOML document (file existence,
permission warnings and TOML decoding are external): empty server or
identity lists and an unresolvable `default_identity` are configuration
errors; parse failures propagate. -/
def load_config (d : ConfigData) : Except Str Config :=
  let defaults := parse_defaults d.defaults
  if d.smtp_servers = [] then .error (lit "No SMTP servers configured in config file")
  else
    match d.smtp_servers.mapM parse_smtp_server with
    | .error e => .error e
    | .ok servers =>
      if d.identities = [] then .error (lit "No identities configured in config file")
      else
        match d.identities.mapM (fun i => parse_identity i servers) with
        | .error e => .error e
        | .ok identities =>
          match defaults.default_identity with
          | some nm =>
            if nm ≠ [] then
              if (identities.map (fun i => pyLower i.name)).contains (pyLower nm) then
                .ok { defaults := defaults, smtp_servers := servers, identities := identities }
              else
                .error (lit "Default identity \x27" ++ nm ++ lit "\x27 not found")
            else .ok { defaults := defaults, smtp_servers := servers, identities := identities }
          | none => .ok { defaults := defaults, smtp_servers := servers, identities := identities }

/-! ### `tmail.mailer`: the delivery engine.

One connect-authenticate-transmit cycle (`_send_via_smtp`) is driven by a
per-cycle environment `SmtpCycle` describing what the network/server did:
an optional connect/STARTTLS/login failure, the outcome of
`server.sendmail` (either a raised `SMTPException` or the dict of refused
recipients), and the outcome of the closing `server.noop()`.  The `quit()`
in the `finally` block swallows its own errors and does not affect the
result, so it is not modelled.

`smtplib.SMTPException` and `OSError` are the exception types the retry
loop catches (`SmtpOutcome.transport`); `MailerError` is a direct
`Exception` subclass the loop does not catch (`SmtpOutcome.fatal`). -/

/-- Environment of one delivery cycle against one host:port. -/
structure SmtpCycle where
  connect : Option Str
  sendmailRefused : Except Str (List Str)
  noop : Except Str Str
deriving Repr

/-- Outcome of one `_send_via_smtp` call: a returned response string, a
raised `SMTPException`/`OSError` (caught by the retry loop), or a raised
`MailerError` (not caught by the retry loop). -/
inductive SmtpOutcome where
  | success (response : Str)
  | transport (e : Str)
  | fatal (e : Str)
deriving DecidableEq, Repr

/-- Python `", ".join(...)` over the refused-recipient keys. -/
def joinCommaSpace (l : List Str) : Str := List.intercalate (lit ", ") l

/-- `mailer._send_via_smtp` given the From header of the message and the
cycle environment.  A missing From header and a non-empty refused dict
raise `MailerError` (fatal); connect/sendmail/noop failures raise
transport errors; otherwise the `250 OK` acknowledgment is returned. -/
def send_via_smtp (fromHeader : Option Str) (cy : SmtpCycle) : SmtpOutcome :=
  match cy.connect with
  | some e => .transport e
  | none =>
    if ¬ pyTruthy fromHeader then .fatal (lit "Message has no From header")
    else
      match cy.sendmailRefused with
      | .error e => .transport e
      | .ok refused =>
        if refused ≠ [] then
          .fatal (lit "Some recipients were refused: " ++ joinCommaSpace refused)
        else
          match cy.noop with
          | .error e => .transport e
          | .ok r => .success (lit "250 OK (server response: " ++ r ++ lit ")")

/-- `mailer.SendResult`. -/
structure SendResult where
  success : Bool
  message : Str
  attempts : Nat
  smtp_response : Option Str
deriving DecidableEq, Repr

/-- Result of one pass over the port list within one outer attempt. -/
inductive CycleOutcome where
  | sent (port : Int) (response : Str)
  | exhausted (lastError : Option Str)
  | raised (e : Str)
deriving DecidableEq, Repr

/-- Inner loop of `send_email`: try each port in order, returning on the
first success, recording a caught transport error as the last error and
moving on, and propagating an uncaught exception. -/
def try_ports (f : Int → SmtpOutcome) : List Int → Option Str → CycleOutcome
  | [], lastError => .exhausted lastError
  | p :: rest, lastError =>
    match f p with
    | .success r => .sent p r
    | .transport e => try_ports f rest (some e)
    | .fatal e => .raised e

/-- Python `str(n)` for the values we print. -/
def natToStr (n : Nat) : Str := (toString n).data

/-- Python `str(p)` for a port. -/
def intToStr (n : Int) : Str := (toString n).data

/-- Outer loop of `send_email` (`for attempt in range(retries + 1)`)
written with the number of attempts still to come after the current one
as the structural fuel: `remaining = retries - attempt`, so the source's
`attempt < retries` test is `remaining > 0`.  Each attempt walks the
ports; between attempts (only) a `2^attempt` backoff wait is recorded.
The returned list is the chronological list of waits performed.  An
uncaught exception aborts the whole call (`Except.error`). -/
def send_loop (f : Nat → Int → SmtpOutcome) (host : Str) (ports : List Int)
    (attempt : Nat) (remaining : Nat) (lastError : Option Str) (waits : List Nat) :
    Except Str (SendResult × List Nat) :=
  let attempts := attempt + 1
  match try_ports (f attempt) ports lastError with
  | .sent p r =>
    .ok ({ success := true,
           message := lit "Email sent successfully via " ++ host ++ lit ":" ++ intToStr p,
           attempts := attempts, smtp_response := some r }, waits)
  | .raised e => .error e
  | .exhausted lastErr =>
    match remaining with
    | r + 1 => send_loop f host ports (attempt + 1) r lastErr (waits ++ [2 ^ attempt])
    | 0 =>
      let errMsg := match lastErr with | some e => e | none => lit "Unknown error"
      .ok ({ success := false,
             message := lit "Failed to send email after " ++ natToStr attempts
               ++ lit " attempt(s): " ++ errMsg,
             attempts := attempts, smtp_response := none }, waits)

/-- `mailer.send_email` given the per-attempt/per-port cycle environment
`env`, the From header of the message, and the resolved password (the
`get_password` call before the loop is `SmtpServer.get_password`; its
`ConfigError` aborts the call before any attempt and is modelled by the
caller).  Verbose printing is I/O-only and not modelled. -/
def send_email (env : Nat → Int → SmtpCycle) (fromHeader : Option Str)
    (host : Str) (ports : List Int) (retries : Nat) :
    Except Str (SendResult × List Nat) :=
  send_loop (fun a p => send_via_smtp fromHeader (env a p)) host ports 0 retries none []

/-! ### `tmail.composer`: the template codec and the editing session -/

/-- `composer.TEMPLATE_SEPARATOR`. -/
def TEMPLATE_SEPARATOR : Str := lit "---"

/-- `composer.HEADER_INSTRUCTIONS` (a single multi-line string; every
line starts with the comment marker). -/
def HEADER_INSTRUCTIONS : Str :=
  lit "# Terminal Mail - Email Composer\n# Lines starting with \x27#\x27 are comments and will be ignored.\n# Edit the headers and body below, then save and exit.\n#\n# FROM IDENTITY: Uncomment ONE line to select your sending identity.\n# DISPLAY NAME: Edit the name portion to customize (e.g., \"Custom Name <email>\").\n# REPLY-TO: Uncomment ONE line to select the reply-to address."

/-- `composer.ComposedEmail`. -/
structure ComposedEmail where
  «to» : List Str
  cc : List Str
  bcc : List Str
  from_addr : Str
  from_name : Option Str
  reply_to : Option Str
  subject : Str
  body : Str
  cancelled : Bool
deriving DecidableEq, Repr

/-- The rendered From value: `"Display Name <email>"` when a display name
is present, else the bare email. -/
def fromValueOf (display_name email : Str) : Str :=
  if display_name ≠ [] then display_name ++ lit " <" ++ email ++ lit ">" else email

/-- One `From:` menu line of `generate_template`: uncommented exactly for
the selected identity, with the custom display name substituted on the
selected line, and a trailing `  # [friendly name]` annotation. -/
def fromMenuLine (selected : Option Identity) (custom_display_name : Option Str)
    (identity : Identity) : Str :=
  let is_selected := selected = some identity
  let display_name :=
    if is_selected ∧ pyTruthy custom_display_name then custom_display_name.getD []
    else identity.display_name
  (if is_selected then [] else lit "#") ++ lit "From: "
    ++ fromValueOf display_name identity.email
    ++ lit "  # [" ++ identity.name ++ lit "]"

/-- The `Reply-To:` menu lines of `generate_template` for the selected
identity: the effective reply-to is the requested one when truthy, else
the first allowed address; exactly the lines equal to it are uncommented. -/
def replyToMenu (ident : Identity) (reply_to : Option Str) : List Str :=
  let effective := if pyTruthy reply_to then reply_to.getD [] else ident.reply_to.headD []
  ident.reply_to.map
    (fun rt => (if rt = effective then [] else lit "#") ++ lit "Reply-To: " ++ rt)

/-- `composer.generate_template`: instructions, the identity menu, the
reply-to menu for the selected identity, the To/Cc/Bcc/Subject lines, the
separator and the body, joined with newlines. -/
def generate_template (config : Config) (recipients cc bcc : List Str)
    (identity_name reply_to subject body custom_display_name : Option Str) : Str :=
  let identities := config.identities
  let selected0 : Option Identity :=
    if pyTruthy identity_name then config.get_identity (identity_name.getD []) else none
  let selected : Option Identity :=
    if selected0 = none ∧ identities ≠ [] then config.get_default_identity else selected0
  let replySection : List Str :=
    match selected with
    | some ident =>
      if ident.reply_to ≠ [] then
        [lit "# ┌─── REPLY-TO for [" ++ ident.name ++ lit "] (select one) ───┐"]
          ++ replyToMenu ident reply_to
          ++ [lit "# └──────────────────────────────────────────────┘", []]
      else []
    | none => []
  let ls : List Str :=
    [HEADER_INSTRUCTIONS, []]
      ++ [lit "# ┌─── FROM IDENTITY (select one) ───┐"]
      ++ identities.map (fromMenuLine selected custom_display_name)
      ++ [lit "# └────────────────────────────────────┘", []]
      ++ replySection
      ++ [lit "To: " ++ joinCommaSpace recipients,
          lit "Cc: " ++ joinCommaSpace cc,
          lit "Bcc: " ++ joinCommaSpace bcc,
          lit "Subject: " ++ (subject.getD []),
          [], TEMPLATE_SEPARATOR, []]
      ++ [match body with
          | some b => if b ≠ [] then b else []
          | none => []]
  List.intercalate (lit "\n") ls

/-- The header accumulation of `parse_template`: a repeated non-empty key
appends the new value joined by `", "`, otherwise the value is set. -/
def addHeader (hs : List (Str × Str)) (k v : Str) : List (Str × Str) :=
  match (hs.find? (fun kv => kv.1 = k)).map (·.2) with
  | some old =>
    if old ≠ [] then hs.map (fun kv => if kv.1 = k then (k, old ++ lit ", " ++ v) else kv)
    else hs.map (fun kv => if kv.1 = k then (k, v) else kv)
  | none => hs ++ [(k, v)]

/-- Processing of one header-region line in `parse_template`: strip,
skip blank and comment lines, split on the first colon, lowercase the
key, strip the value and its trailing `  #` annotation. -/
def headerStep (hs : List (Str × Str)) (rawLine : Str) : List (Str × Str) :=
  let line := pyStrip rawLine
  if line = [] ∨ (lit "#").isPrefixOf line then hs
  else if ':' ∈ line then
    let key := pyLower (pyStrip (line.takeWhile (· ≠ ':')))
    let value := stripNote (pyStrip ((line.dropWhile (· ≠ ':')).tail))
    addHeader hs key value
  else hs

/-- Lookup in the accumulated headers, defaulting to the empty string
(`headers.get(k, "")`). -/
def getHeader (hs : List (Str × Str)) (k : Str) : Str :=
  ((hs.find? (fun kv => kv.1 = k)).map (·.2)).getD []

/-- The To/Cc/Bcc splitting of `parse_template`: split on commas, strip
each entry, drop empties. -/
def splitAddrs (v : Str) : List Str :=
  ((v.splitOn ',').map pyStrip).filter (· ≠ [])

/-- `composer.parse_template`: fails exactly when no line strips to the
separator; headers before it are folded with `headerStep`, the From value
is split into display name and address when it has the `Name <addr>`
shape, and the body is the stripped join of the remaining lines. -/
def parse_template (content : Str) : Except Str ComposedEmail :=
  let lines := content.splitOn '\n'
  match lines.findIdx? (fun l => pyStrip l = TEMPLATE_SEPARATOR) with
  | none =>
    .error (lit "Template missing separator line (\x27---\x27). Please keep the separator between headers and body.")
  | some separator_idx =>
    let header_lines := lines.take separator_idx
    let body_lines := lines.drop (separator_idx + 1)
    let headers := header_lines.foldl headerStep []
    let from_raw := getHeader headers (lit "from")
    let fromPair : Str × Option Str :=
      if '<' ∈ from_raw ∧ '>' ∈ from_raw then
        let part0 := from_raw.takeWhile (· ≠ '<')
        let part1 := ((from_raw.dropWhile (· ≠ '<')).tail).takeWhile (· ≠ '<')
        (pyStrip (part1.takeWhile (· ≠ '>')),
         if pyStrip part0 ≠ [] then some (pyStrip part0) else none)
      else (from_raw, none)
    let reply_to_raw := stripNote (getHeader headers (lit "reply-to"))
    .ok { «to» := splitAddrs (getHeader headers (lit "to")),
          cc := splitAddrs (getHeader headers (lit "cc")),
          bcc := splitAddrs (getHeader headers (lit "bcc")),
          from_addr := fromPair.1,
          from_name := fromPair.2,
          reply_to := if reply_to_raw ≠ [] then some reply_to_raw else none,
          subject := getHeader headers (lit "subject"),
          body := pyStrip (List.intercalate (lit "\n") body_lines),
          cancelled := false }

/-- Environment of one editing session: the editor's exit code, the
temporary file's modification timestamps before and after the editor ran,
and the file's content as read back afterwards. -/
structure EditSession where
  editorExitCode : Int
  mtimeBefore : Nat
  mtimeAfter : Nat
  editedContent : Str
deriving DecidableEq, Repr

/-- `composer.compose_interactively` given the session environment: a
non-zero editor exit fails the session; an unchanged mtime returns the
cancelled all-empty `ComposedEmail`; otherwise the edited content is
parsed.  The temporary file's creation and best-effort removal are I/O
with no effect on the returned value. -/
def compose_interactively (config : Config) (recipients cc bcc : List Str)
    (identity_name reply_to subject body custom_display_name : Option Str)
    (sess : EditSession) : Except Str ComposedEmail :=
  let _template := generate_template config recipients cc bcc identity_name reply_to
    subject body custom_display_name
  if sess.editorExitCode ≠ 0 then
    .error (lit "Editor exited with code " ++ (toString sess.editorExitCode).data)
  else if sess.mtimeAfter = sess.mtimeBefore then
    .ok { «to» := [], cc := [], bcc := [], from_addr := [], from_name := none,
          reply_to := none, subject := [], body := [], cancelled := true }
  else parse_template sess.editedContent

/-! ### `tmail.message`: validation -/

/-- What the filesystem says about an attachment path: `absent`
(`not path.exists()`), `regular` (`path.is_file()`), or `other`
(exists but is not a regular file). -/
inductive FileStatus where
  | absent
  | regular
  | other
deriving DecidableEq, Repr

/-- `message.EmailData` (the fields `validate` inspects, plus the rest of
the dataclass). -/
structure EmailData where
  «to» : List Str
  cc : List Str
  bcc : List Str
  from_addr : Str
  from_name : Option Str
  reply_to : Option Str
  subject : Str
  body : Str
  attachments : List Str
deriving DecidableEq, Repr

/-- `EmailData.validate` with the filesystem abstracted as
`fs : path → FileStatus`: empty To list and empty from address each
contribute one error, and each attachment contributes an error when it is
absent or not a regular file. -/
def EmailData.validate (fs : Str → FileStatus) (d : EmailData) : List Str :=
  (if d.«to» = [] then [lit "No recipients specified"] else [])
    ++ (if d.from_addr = [] then [lit "No from address specified"] else [])
    ++ d.attachments.flatMap
        (fun a =>
          match fs a with
          | .absent => [lit "Attachment not found: " ++ a]
          | .other => [lit "Attachment is not a file: " ++ a]
          | .regular => [])

/-- A decoded config document whose only server carries an invalid base64
static password (the test suite's `"not-valid-base64!!!"`). -/
def invalidB64Data : ConfigData :=
  { defaults := { retries := none, interactive := none, skip_confirmation := none,
                  default_identity := none },
    smtp_servers := [{ name := some (lit "test"), host := some (lit "smtp.example.com"),
                       ports := none, user := some (lit "user"),
                       password := some (lit "not-valid-base64!!!"),
                       password_cmd := none, password_encoding := some (lit "base64"),
                       use_tls := none }],
    identities := [{ name := some (lit "Main"), email := some (lit "user@example.com"),
                     display_name := none, smtp_server := some (lit "test"),
                     reply_to := none }] }

/-- The server `invalidB64Data` loads to. -/
def invalidB64Server : SmtpServer :=
  { name := lit "test", host := lit "smtp.example.com", ports := [587],
    user := some (lit "user"), password := some (lit "not-valid-base64!!!"),
    password_cmd := none, password_encoding := lit "base64", use_tls := true }

/-- A server configured with a credential command and (ignored) static
password. -/
def cmdServer : SmtpServer :=
  { name := lit "cmdsrv", host := lit "h", ports := [587], user := some (lit "u"),
    password := some (lit "static-ignored"), password_cmd := some (lit "getpw"),
    password_encoding := lit "plain", use_tls := true }

/-- An execution environment whose command prints two lines. -/
def twoLineExec : Str → Nat → CmdOutcome :=
  fun _ _ => CmdOutcome.finished 0 (lit "first\nsecond\n") []

/-- A delivery environment where port 587 partially refuses (one refused
recipient, so `sendmail` returns a non-empty dict) and port 465 would
succeed. -/
def partialRefusalEnv : Nat → Int → SmtpCycle :=
  fun _ p =>
    if p = 587 then
      { connect := none, sendmailRefused := .ok [lit "bob@example.com"],
        noop := .ok (lit "250 OK") }
    else
      { connect := none, sendmailRefused := .ok [], noop := .ok (lit "250 OK") }

/-- A cycle whose connect step fails with a caught `OSError`. -/
def connRefusedCycle : SmtpCycle :=
  { connect := some (lit "Connection refused"), sendmailRefused := .ok [], noop := .ok [] }

/-- The message carried by a transport-failure outcome. -/
def transportMsg : SmtpOutcome → Str
  | .transport e => e
  | _ => []

/-- The uncommented `Reply-To:` lines of a rendered template. -/
def uncommentedReplyToLines (template : Str) : List Str :=
  (template.splitOn '\n').filter (fun l => (lit "Reply-To:").isPrefixOf l)

/-- A two-address identity and its config, for the reply-to menu. -/
def twoReplyIdentity : Identity :=
  { name := lit "Personal", email := lit "user@example.com", display_name := [],
    smtp_server := lit "smtp1",
    reply_to := [lit "user@example.com", lit "alias@example.com"] }

/-- Config owning `twoReplyIdentity`. -/
def twoReplyConfig : Config :=
  { defaults := { retries := 1, interactive := true, skip_confirmation := false,
                  default_identity := none },
    smtp_servers := [{ name := lit "smtp1", host := lit "h", ports := [587], user := none,
                       password := none, password_cmd := none,
                       password_encoding := lit "plain", use_tls := true }],
    identities := [twoReplyIdentity] }

/-! ### String utility lemmas -/

/-- Is the first character (if any) a non-space? -/
def headOk (s : Str) : Bool :=
  match s with
  | [] => true
  | c :: _ => !isPySpace c

/-- Is the last character (if any) a non-space? -/
def lastOk (s : Str) : Bool := headOk s.reverse

theorem pyStripLeft_of_headOk {s : Str} (h : headOk s = true) : pyStripLeft s = s := by
  cases s with
  | nil => rfl
  | cons c t =>
    simp only [headOk, Bool.not_eq_true'] at h
    simp [pyStripLeft, List.dropWhile_cons, h]

theorem pyStripRight_of_lastOk {s : Str} (h : lastOk s = true) : pyStripRight s = s := by
  have := pyStripLeft_of_headOk (s := s.reverse) h
  simp only [pyStripRight, pyStripLeft] at *
  rw [this, List.reverse_reverse]

theorem pyStrip_eq_self {s : Str} (h1 : headOk s = true) (h2 : lastOk s = true) :
    pyStrip s = s := by
  rw [pyStrip, pyStripLeft_of_headOk h1, pyStripRight_of_lastOk h2]

theorem headOk_of_pyStrip {s : Str} (h : pyStrip s = s) : headOk s = true := by
  cases s with
  | nil => rfl
  | cons c t =>
    by_contra hc
    simp only [headOk, Bool.not_eq_true', Bool.not_eq_true, Bool.not_eq_false] at hc
    have hlen : (pyStrip (c :: t)).length ≤ t.length := by
      have h1 : pyStripLeft (c :: t) = pyStripLeft t := by
        simp [pyStripLeft, List.dropWhile_cons, hc]
      have h2 : (pyStripLeft t).length ≤ t.length := (List.dropWhile_suffix _).length_le
      have h3 : ∀ x : Str, (pyStripRight x).length ≤ x.length := by
        intro x
        simp only [pyStripRight, List.length_reverse]
        calc (List.dropWhile isPySpace x.reverse).length
            ≤ x.reverse.length := (List.dropWhile_suffix _).length_le
          _ = x.length := by simp
      calc (pyStrip (c :: t)).length = (pyStripRight (pyStripLeft t)).length := by
            rw [pyStrip, h1]
        _ ≤ (pyStripLeft t).length := h3 _
        _ ≤ t.length := h2
    rw [h] at hlen
    simp at hlen

theorem lastOk_of_pyStrip {s : Str} (h : pyStrip s = s) : lastOk s = true := by
  have hl : pyStripLeft s = s := by
    have hsfx : (pyStrip s).length ≤ (pyStripLeft s).length := by
      simp only [pyStrip, pyStripRight, List.length_reverse]
      calc (List.dropWhile isPySpace (pyStripLeft s).reverse).length
          ≤ (pyStripLeft s).reverse.length := (List.dropWhile_suffix _).length_le
        _ = (pyStripLeft s).length := by simp
    rw [h] at hsfx
    have : pyStripLeft s <:+ s := List.dropWhile_suffix _
    exact List.IsSuffix.eq_of_length this (Nat.le_antisymm (this.length_le) hsfx)
  have hr : pyStripRight s = s := by rw [← hl]; rw [pyStrip] at h; rw [hl] at h ⊢; exact h
  cases hs : s.reverse with
  | nil => simp [lastOk, hs, headOk]
  | cons d r =>
    by_contra hc
    simp only [lastOk, hs, headOk, Bool.not_eq_true', Bool.not_eq_true, Bool.not_eq_false] at hc
    have : pyStripRight s = (List.dropWhile isPySpace r).reverse := by
      simp [pyStripRight, hs, List.dropWhile_cons, hc]
    rw [hr] at this
    have hlen : s.length ≤ r.length := by
      rw [this]
      simp only [List.length_reverse]
      exact (List.dropWhile_suffix _).length_le
    have : s.length = r.length + 1 := by
      have := congrArg List.length hs
      simpa using this
    omega

theorem pyStrip_cons_space {s : Str} : pyStrip (' ' :: s) = pyStrip s := by
  simp [pyStrip, pyStripLeft, List.dropWhile_cons, isPySpace]

theorem headOk_append_left {a b : Str} (ha : a ≠ []) (h : headOk a = true) :
    headOk (a ++ b) = true := by
  cases a with
  | nil => exact absurd rfl ha
  | cons c t => simpa [headOk] using h

theorem lastOk_append_right {a b : Str} (hb : b ≠ []) (h : lastOk b = true) :
    lastOk (a ++ b) = true := by
  cases hr : b.reverse with
  | nil => simp at hr; exact absurd hr hb
  | cons d r =>
    simp only [lastOk, List.reverse_append, hr] at *
    simpa [headOk] using h

/-! ### C8: message validation -/

/-- C8: `EmailData.validate` returns the empty list iff the To list is
non-empty, the from address is non-empty and every attachment is an
existing regular file; each violated condition contributes its own entry. -/
theorem validate_empty_iff (fs : Str → FileStatus) (d : EmailData) :
    (d.validate fs = [] ↔
      d.«to» ≠ [] ∧ d.from_addr ≠ [] ∧ ∀ a ∈ d.attachments, fs a = .regular)
    ∧ (d.«to» = [] → lit "No recipients specified" ∈ d.validate fs)
    ∧ (d.from_addr = [] → lit "No from address specified" ∈ d.validate fs)
    ∧ (∀ a ∈ d.attachments, fs a = .absent →
        lit "Attachment not found: " ++ a ∈ d.validate fs)
    ∧ (∀ a ∈ d.attachments, fs a = .other →
        lit "Attachment is not a file: " ++ a ∈ d.validate fs) := by
  refine ⟨?_, ?_, ?_, ?_, ?_⟩
  · constructor
    · intro h
      simp only [EmailData.validate, List.append_eq_nil, List.flatMap_eq_nil_iff] at h
      obtain ⟨⟨h1, h2⟩, h3⟩ := h
      refine ⟨?_, ?_, ?_⟩
      · intro hto; rw [hto] at h1; simp at h1
      · intro hfrom; rw [hfrom] at h2; simp at h2
      · intro a ha
        have := h3 a ha
        cases hfs : fs a <;> simp [hfs] at this ⊢
    · rintro ⟨h1, h2, h3⟩
      simp only [EmailData.validate, List.append_eq_nil, List.flatMap_eq_nil_iff]
      refine ⟨⟨?_, ?_⟩, ?_⟩
      · simp [h1]
      · simp [h2]
      · intro a ha; simp [h3 a ha]
  · intro h; simp [EmailData.validate, h]
  · intro h; simp [EmailData.validate, h]
  · intro a ha h
    simp only [EmailData.validate, List.mem_append]
    right
    exact List.mem_flatMap.mpr ⟨a, ha, by simp [h]⟩
  · intro a ha h
    simp only [EmailData.validate, List.mem_append]
    right
    exact List.mem_flatMap.mpr ⟨a, ha, by simp [h]⟩

/-- Witness for C8 at a concrete `EmailData` and filesystem. -/
theorem validate_empty_iff_witness :
    ({ «to» := [lit "a@x"], cc := [], bcc := [], from_addr := lit "b@x",
       from_name := none, reply_to := none, subject := [], body := [],
       attachments := [lit "/tmp/f"] } : EmailData).validate (fun _ => .regular) = [] :=
  (validate_empty_iff (fun _ => .regular) _).1.mpr
    ⟨by decide, by decide, by intro a ha; rfl⟩

/-! ### C9 and C10: editing session and the cancellation flag -/

/-- C9: a zero editor exit code with identical before/after modification
timestamps yields the cancelled `ComposedEmail` with every field empty,
never an error. -/
theorem compose_unmodified_cancelled (config : Config) (recipients cc bcc : List Str)
    (identity_name reply_to subject body custom_display_name : Option Str)
    (sess : EditSession) (h1 : sess.editorExitCode = 0)
    (h2 : sess.mtimeAfter = sess.mtimeBefore) :
    compose_interactively config recipients cc bcc identity_name reply_to subject body
      custom_display_name sess =
      .ok { «to» := [], cc := [], bcc := [], from_addr := [], from_name := none,
            reply_to := none, subject := [], body := [], cancelled := true } := by
  simp [compose_interactively, h1, h2]

/-- Witness for C9 at a concrete configuration and session. -/
theorem compose_unmodified_cancelled_witness :
    compose_interactively
      { defaults := { retries := 1, interactive := true, skip_confirmation := false,
                      default_identity := none },
        smtp_servers := [], identities := [] }
      [] [] [] none none none none none
      { editorExitCode := 0, mtimeBefore := 7, mtimeAfter := 7, editedContent := [] } =
      .ok { «to» := [], cc := [], bcc := [], from_addr := [], from_name := none,
            reply_to := none, subject := [], body := [], cancelled := true } :=
  compose_unmodified_cancelled _ _ _ _ _ _ _ _ _ _ rfl rfl

/-- C10: a `ComposedEmail` produced by `parse_template` always has the
cancellation flag unset, and a cancelled `ComposedEmail` returned by
`compose_interactively` can only come from the unmodified-file path
(editor exit 0 and unchanged mtime). -/
theorem parse_never_cancelled :
    (∀ (content : Str) (e : ComposedEmail),
      parse_template content = .ok e → e.cancelled = false)
    ∧ (∀ (config : Config) (recipients cc bcc : List Str)
        (identity_name reply_to subject body custom_display_name : Option Str)
        (sess : EditSession) (e : ComposedEmail),
        compose_interactively config recipients cc bcc identity_name reply_to subject body
          custom_display_name sess = .ok e →
        e.cancelled = true →
        sess.editorExitCode = 0 ∧ sess.mtimeAfter = sess.mtimeBefore) := by
  have hparse : ∀ (content : Str) (e : ComposedEmail),
      parse_template content = .ok e → e.cancelled = false := by
    intro content e h
    simp only [parse_template] at h
    cases hfind : (content.splitOn '\n').findIdx? (fun l => pyStrip l = TEMPLATE_SEPARATOR) with
    | none => rw [hfind] at h; exact Except.noConfusion h
    | some i =>
      rw [hfind] at h
      simp only [Except.ok.injEq] at h
      rw [← h]
  refine ⟨hparse, ?_⟩
  intro config recipients cc bcc identity_name reply_to subject body custom_display_name
    sess e h hc
  by_cases h1 : sess.editorExitCode = 0
  · by_cases h2 : sess.mtimeAfter = sess.mtimeBefore
    · exact ⟨h1, h2⟩
    · exfalso
      have hp : parse_template sess.editedContent = .ok e := by
        simpa [compose_interactively, h1, h2] using h
      have := hparse sess.editedContent e hp
      rw [this] at hc
      simp at hc
  · exfalso
    simp [compose_interactively, h1] at h

/-- Witness for C10 at a concrete parse and a concrete session. -/
theorem parse_never_cancelled_witness :
    (parse_template (lit "To: a@x\n---\nhi")).map (fun e => e.cancelled) = .ok false := by
  cases hp : parse_template (lit "To: a@x\n---\nhi") with
  | error e =>
    have hok : (parse_template (lit "To: a@x\n---\nhi")).isOk = true := by decide
    rw [hp] at hok
    exact absurd hok (by simp [Except.isOk, Except.toBool])
  | ok e =>
    have hc := parse_never_cancelled.1 _ e hp
    simp [Except.map, hc]

/-! ### C5: parse failure is exactly the missing separator -/

/-- C5: `parse_template` fails exactly when no line of the input strips
to the separator token, always with the missing-separator message, and
succeeds with a `ComposedEmail` on every other input (no header can make
it fail). -/
theorem parse_template_error_iff (content : Str) :
    ((∃ e, parse_template content = .error e) ↔
      ∀ l ∈ content.splitOn '\n', pyStrip l ≠ TEMPLATE_SEPARATOR)
    ∧ (∀ e, parse_template content = .error e →
        e = lit "Template missing separator line (\x27---\x27). Please keep the separator between headers and body.")
    ∧ ((∃ l ∈ content.splitOn '\n', pyStrip l = TEMPLATE_SEPARATOR) →
        ∃ c, parse_template content = .ok c) := by
  cases hfind : (content.splitOn '\n').findIdx? (fun l => pyStrip l = TEMPLATE_SEPARATOR) with
  | none =>
    have hall : ∀ l ∈ content.splitOn '\n', pyStrip l ≠ TEMPLATE_SEPARATOR := by
      intro l hl
      have := List.findIdx?_eq_none_iff.mp hfind l hl
      simpa using this
    have hp : parse_template content =
        .error (lit "Template missing separator line (\x27---\x27). Please keep the separator between headers and body.") := by
      simp only [parse_template, hfind]
    refine ⟨⟨fun _ => hall, fun _ => ⟨_, hp⟩⟩, ?_, ?_⟩
    · intro e he
      rw [hp] at he
      exact (Except.error.injEq _ _).mp he.symm
    · rintro ⟨l, hl, hsep⟩
      exact absurd hsep (hall l hl)
  | some i =>
    have hok : ∃ c, parse_template content = .ok c := by
      simp only [parse_template, hfind]
      exact ⟨_, rfl⟩
    obtain ⟨c, hc⟩ := hok
    have hex : ∃ l ∈ content.splitOn '\n', pyStrip l = TEMPLATE_SEPARATOR := by
      obtain ⟨hlt, hp, -⟩ := List.findIdx?_eq_some_iff_getElem.mp hfind
      refine ⟨(content.splitOn '\n')[i], List.getElem_mem _, ?_⟩
      simpa using hp
    refine ⟨⟨?_, ?_⟩, ?_, ?_⟩
    · rintro ⟨e, he⟩
      rw [hc] at he
      exact Except.noConfusion he
    · intro hall
      obtain ⟨l, hl, hsep⟩ := hex
      exact absurd hsep (hall l hl)
    · intro e he
      rw [hc] at he
      exact Except.noConfusion he
    · intro _
      exact ⟨c, hc⟩

/-- Witness for C5: a separator-free input fails with the fixed message,
and an input with a separator line parses. -/
theorem parse_template_error_iff_witness :
    (∃ e, parse_template (lit "no separator here") = .error e) ∧
    (∃ c, parse_template (lit "Subject: s\n---\nbody") = .ok c) :=
  ⟨(parse_template_error_iff (lit "no separator here")).1.mpr (by decide),
   (parse_template_error_iff (lit "Subject: s\n---\nbody")).2.2
     ⟨lit "---", by decide, by decide⟩⟩

/-! ### C3: base64 static passwords -/

/-- C3 counterexample: configuration loading does NOT fail on an invalid
base64 password — `load_config` succeeds (the password value is never
inspected at load time); the `ConfigError` is raised only when the secret
is resolved by `get_password`. -/
theorem load_config_accepts_invalid_b64 :
    load_config invalidB64Data =
      .ok { defaults := { retries := 1, interactive := true, skip_confirmation := false,
                          default_identity := none },
            smtp_servers := [invalidB64Server],
            identities := [{ name := lit "Main", email := lit "user@example.com",
                             display_name := [], smtp_server := lit "test",
                             reply_to := [lit "user@example.com"] }] }
    ∧ SmtpServer.get_password (fun _ _ => CmdOutcome.timeout) invalidB64Server =
        .error (lit "Failed to decode base64 password for SMTP \x27test\x27") := by
  constructor
  · decide
  · decide

/-- C3 (amended): for a server with no credential command and a base64
`password_encoding`, an undecodable static password makes secret
resolution (`get_password`) fail with a `ConfigError`, and the valid
base64 string `"c2VjcmV0MTIz"` resolves to `"secret123"`. -/
theorem get_password_base64 (exec : Str → Nat → CmdOutcome) (s : SmtpServer)
    (hcmd : s.password_cmd = none)
    (henc : pyLower s.password_encoding = lit "base64") :
    (∀ pw, s.password = some pw → pyB64DecodeUtf8 pw = none →
      s.get_password exec =
        .error (lit "Failed to decode base64 password for SMTP \x27" ++ s.name ++ lit "\x27"))
    ∧ (s.password = some (lit "c2VjcmV0MTIz") →
        s.get_password exec = .ok (some (lit "secret123"))) := by
  constructor
  · intro pw hpw hdec
    have hne : pw ≠ [] := by
      intro h
      rw [h] at hdec
      exact absurd hdec (by decide)
    simp [SmtpServer.get_password, SmtpServer.staticPassword, hcmd, hpw, hne, henc, hdec]
  · intro hpw
    have hdec : pyB64DecodeUtf8 (lit "c2VjcmV0MTIz") = some (lit "secret123") := by decide
    simp [SmtpServer.get_password, SmtpServer.staticPassword, hcmd, hpw, henc, hdec]
    decide

/-- Witness for C3 (amended) at concrete servers: the invalid password of
the test suite errors and the valid one decodes. -/
theorem get_password_base64_witness :
    SmtpServer.get_password (fun _ _ => CmdOutcome.timeout)
      { invalidB64Server with password := some (lit "c2VjcmV0MTIz") } =
      .ok (some (lit "secret123")) :=
  (get_password_base64 (fun _ _ => CmdOutcome.timeout)
    { invalidB64Server with password := some (lit "c2VjcmV0MTIz") }
    rfl (by decide)).2 rfl

/-! ### C4: credential commands -/

/-- C4 counterexample: with a command whose stdout is
`"first\nsecond\n"`, `get_password` returns the whole stripped stdout
`"first\nsecond"`, not the first line `"first"` the claim states. -/
theorem get_password_not_first_line :
    SmtpServer.get_password twoLineExec cmdServer = .ok (some (lit "first\nsecond"))
    ∧ lit "first\nsecond" ≠ lit "first" := by
  constructor
  · decide
  · decide

/-- C4 (amended): with a (truthy) credential command, `get_password`
queries the command environment with a 30-second timeout and, on exit
code 0, returns the entire stripped standard output (equal to the first
line only when the output is a single line); timeouts and non-zero exits
are `ConfigError`s; the static password is never consulted. -/
theorem get_password_command (exec : Str → Nat → CmdOutcome) (s : SmtpServer)
    (cmd : Str) (hcmd : s.password_cmd = some cmd) (hne : cmd ≠ []) :
    (∀ out err, exec cmd 30 = .finished 0 out err →
      s.get_password exec = .ok (some (pyStrip out)))
    ∧ (exec cmd 30 = .timeout →
        s.get_password exec =
          .error (lit "Password command timed out for SMTP \x27" ++ s.name ++ lit "\x27"))
    ∧ (∀ rc out err, exec cmd 30 = .finished rc out err → rc ≠ 0 →
        s.get_password exec =
          .error (lit "Password command failed for SMTP \x27" ++ s.name ++ lit "\x27: "
            ++ pyStrip err)) := by
  refine ⟨?_, ?_, ?_⟩
  · intro out err hx
    simp [SmtpServer.get_password, hcmd, hne, hx]
  · intro hx
    simp [SmtpServer.get_password, hcmd, hne, hx]
  · intro rc out err hx hrc
    simp [SmtpServer.get_password, hcmd, hne, hx, hrc]

/-- Witness for C4 (amended) at the concrete command server. -/
theorem get_password_command_witness :
    SmtpServer.get_password twoLineExec cmdServer = .ok (some (pyStrip (lit "first\nsecond\n"))) :=
  (get_password_command twoLineExec cmdServer (lit "getpw") rfl (by decide)).1
    (lit "first\nsecond\n") [] rfl

/-! ### C1: partial recipient refusal -/

/-- C1 counterexample: with ports `[587, 465]` and one retry available,
a partial refusal on the first cycle makes the whole call raise the
`MailerError` (the retry loop catches only `SMTPException`/`OSError`):
the error is NOT recorded as the last error, port 465 is never tried, no
retry happens and no `SendResult` is produced — contradicting the claim
that the cycle failure is retried under the normal retry policy. -/
theorem send_email_partial_refusal_raises :
    send_email partialRefusalEnv (some (lit "alice@example.com"))
        (lit "smtp.example.com") [587, 465] 1 =
      .error (lit "Some recipients were refused: bob@example.com")
    ∧ ¬ ∃ r w, send_email partialRefusalEnv (some (lit "alice@example.com"))
        (lit "smtp.example.com") [587, 465] 1 = .ok (r, w) := by
  have h : send_email partialRefusalEnv (some (lit "alice@example.com"))
      (lit "smtp.example.com") [587, 465] 1 =
      .error (lit "Some recipients were refused: bob@example.com") := by decide
  refine ⟨h, ?_⟩
  rintro ⟨r, w, hw⟩
  rw [h] at hw
  exact Except.noConfusion hw

/-- C1 (amended): whenever the first executed cycle reports a partial
(non-empty) recipient refusal, `_send_via_smtp` raises a `MailerError`
and `send_email` aborts with that error: the refusal is never reported as
a success, but it is also not treated as a retryable transport failure —
no further port or attempt is tried, whatever ports and retries remain. -/
theorem send_email_partial_refusal (env : Nat → Int → SmtpCycle) (fromHeader : Option Str)
    (host : Str) (p : Int) (ports : List Int) (retries : Nat) (refused : List Str)
    (hconn : (env 0 p).connect = none) (hfrom : pyTruthy fromHeader = true)
    (href : (env 0 p).sendmailRefused = .ok refused) (hne : refused ≠ []) :
    send_via_smtp fromHeader (env 0 p) =
      .fatal (lit "Some recipients were refused: " ++ joinCommaSpace refused)
    ∧ send_email env fromHeader host (p :: ports) retries =
      .error (lit "Some recipients were refused: " ++ joinCommaSpace refused) := by
  have hcy : send_via_smtp fromHeader (env 0 p) =
      .fatal (lit "Some recipients were refused: " ++ joinCommaSpace refused) := by
    simp [send_via_smtp, hconn, hfrom, href, hne]
  refine ⟨hcy, ?_⟩
  simp [send_email, send_loop, try_ports, hcy]

/-- Witness for C1 (amended) at the concrete refusal environment. -/
theorem send_email_partial_refusal_witness :
    send_email partialRefusalEnv (some (lit "alice@example.com"))
        (lit "smtp.example.com") [587, 465] 3 =
      .error (lit "Some recipients were refused: " ++ joinCommaSpace [lit "bob@example.com"]) :=
  (send_email_partial_refusal partialRefusalEnv (some (lit "alice@example.com"))
    (lit "smtp.example.com") 587 [465] 3 [lit "bob@example.com"]
    rfl rfl rfl (by decide)).2

/-! ### C2: the retry/backoff policy when every cycle fails -/

theorem try_ports_all_transport (f : Int → SmtpOutcome) (ports : List Int)
    (hne : ports ≠ []) (hf : ∀ p ∈ ports, ∃ e, f p = .transport e) (le : Option Str) :
    try_ports f ports le = .exhausted (some (transportMsg (f (ports.getLast hne)))) := by
  induction ports generalizing le with
  | nil => exact absurd rfl hne
  | cons p rest ih =>
    obtain ⟨e, he⟩ := hf p (by simp)
    cases rest with
    | nil => simp [try_ports, he, transportMsg]
    | cons q qs =>
      have hr : q :: qs ≠ [] := by simp
      rw [show (p :: q :: qs).getLast hne = (q :: qs).getLast hr from rfl]
      simp only [try_ports, he]
      exact ih hr (fun x hx => hf x (by simp [hx])) (some e)

theorem send_loop_all_fail (f : Nat → Int → SmtpOutcome) (host : Str) (ports : List Int)
    (hne : ports ≠ []) (hf : ∀ a p, p ∈ ports → ∃ e, f a p = .transport e) :
    ∀ (remaining attempt : Nat) (lastError : Option Str) (waits : List Nat),
    send_loop f host ports attempt remaining lastError waits =
      .ok ({ success := false,
             message := lit "Failed to send email after " ++ natToStr (attempt + remaining + 1)
               ++ lit " attempt(s): "
               ++ transportMsg (f (attempt + remaining) (ports.getLast hne)),
             attempts := attempt + remaining + 1, smtp_response := none },
           waits ++ (List.range' attempt remaining).map (2 ^ ·)) := by
  intro remaining
  induction remaining with
  | zero =>
    intro attempt lastError waits
    rw [send_loop, try_ports_all_transport (f attempt) ports hne (fun p hp => hf attempt p hp)]
    simp [transportMsg, List.range']
  | succ r ih =>
    intro attempt lastError waits
    rw [send_loop, try_ports_all_transport (f attempt) ports hne (fun p hp => hf attempt p hp)]
    simp only []
    rw [ih (attempt + 1)]
    have h1 : attempt + 1 + r = attempt + (r + 1) := by omega
    have h2 : List.range' attempt (r + 1) = attempt :: List.range' (attempt + 1) r :=
      List.range'_succ _ _ _ ▸ rfl
    simp [h1, h2]

/-- C2: with retry budget `N` and every port of every attempt failing
with a caught transport error, `send_email` performs exactly `N+1`
attempts, reports failure with the attempt count and the last recorded
error (the one from the last port of the last attempt), and the backoff
waits are exactly `2^0, 2^1, .., 2^(N-1)` — one between consecutive
attempts, none within an attempt, none after the last — summing to
`sum(2^i for i in 0..N-1)`. -/
theorem send_email_all_fail (env : Nat → Int → SmtpCycle) (fromHeader : Option Str)
    (host : Str) (ports : List Int) (N : Nat) (hne : ports ≠ [])
    (hf : ∀ a p, p ∈ ports → ∃ e, send_via_smtp fromHeader (env a p) = .transport e) :
    send_email env fromHeader host ports N =
      .ok ({ success := false,
             message := lit "Failed to send email after " ++ natToStr (N + 1)
               ++ lit " attempt(s): "
               ++ transportMsg (send_via_smtp fromHeader (env N (ports.getLast hne))),
             attempts := N + 1, smtp_response := none },
           (List.range N).map (2 ^ ·))
    ∧ ((List.range N).map (2 ^ ·)).sum = ∑ i ∈ Finset.range N, 2 ^ i := by
  constructor
  · have := send_loop_all_fail (fun a p => send_via_smtp fromHeader (env a p)) host ports
      hne hf N 0 none []
    rw [send_email, this]
    simp [List.range_eq_range']
  · induction N with
    | zero => simp
    | succ n ih =>
      rw [List.range_succ, Finset.sum_range_succ, ← ih]
      simp

/-- Witness for C2 at a concrete always-failing environment with two
ports and `N = 2`. -/
theorem send_email_all_fail_witness :
    send_email (fun _ _ => connRefusedCycle)
        (some (lit "a@x")) (lit "smtp.example.com") [587, 465] 2 =
      .ok ({ success := false,
             message := lit "Failed to send email after " ++ natToStr 3
               ++ lit " attempt(s): "
               ++ transportMsg (send_via_smtp (some (lit "a@x")) connRefusedCycle),
             attempts := 3, smtp_response := none },
           (List.range 2).map (2 ^ ·)) :=
  (send_email_all_fail (fun _ _ => connRefusedCycle)
    (some (lit "a@x")) (lit "smtp.example.com") [587, 465] 2 (by decide)
    (fun a p _ => ⟨lit "Connection refused", rfl⟩)).1

/-! ### C7: the reply-to menu -/

/-- C7 counterexample: with two allowed reply-to addresses and a
requested reply-to that is NOT in the allowed set, the generated template
has NO uncommented `Reply-To:` line at all — not one line carrying the
first allowed address as the claim states (the source computes
`reply_to or allowed[0]` and then marks only lines equal to that value,
so an unknown requested value matches no line). -/
theorem replyto_menu_none_uncommented :
    uncommentedReplyToLines
      (generate_template twoReplyConfig [] [] [] (some (lit "Personal"))
        (some (lit "other@example.com")) none none none) = [] := by
  decide

theorem menuLine_prefix_eq (rt : Str) :
    (lit "#").isPrefixOf (lit "Reply-To: " ++ rt) = false := rfl

theorem menuLine_prefix_ne (rt : Str) :
    (lit "#").isPrefixOf ((lit "#" ++ lit "Reply-To: ") ++ rt) = true := rfl

theorem replyToMenu_filter (ident : Identity) (requested : Option Str) :
    (replyToMenu ident requested).filter (fun l => !(lit "#").isPrefixOf l) =
      (ident.reply_to.filter
        (fun rt => rt = (if pyTruthy requested then requested.getD []
                         else ident.reply_to.headD []))).map
        (fun rt => lit "Reply-To: " ++ rt) := by
  simp only [replyToMenu]
  generalize (if pyTruthy requested = true then requested.getD []
    else ident.reply_to.headD []) = eff
  generalize ident.reply_to = l
  induction l with
  | nil => rfl
  | cons rt t ih =>
    by_cases h : rt = eff
    · subst h
      rw [List.map_cons,
          show ((if rt = rt then ([] : Str) else lit "#") ++ lit "Reply-To: " ++ rt) =
            lit "Reply-To: " ++ rt by simp,
          List.filter_cons_of_pos (by rw [menuLine_prefix_eq]; rfl),
          List.filter_cons_of_pos (by simp), List.map_cons, ih]
    · rw [List.map_cons,
          show ((if rt = eff then ([] : Str) else lit "#") ++ lit "Reply-To: " ++ rt) =
            (lit "#" ++ lit "Reply-To: ") ++ rt by simp [h],
          List.filter_cons_of_neg (by rw [menuLine_prefix_ne]; decide),
          List.filter_cons_of_neg (by simp [h])]
      exact ih

/-- C7 (amended): for an identity with more than one (duplicate-free)
allowed reply-to address, the menu renders exactly one uncommented
`Reply-To:` line when the requested value is absent/empty (the first
allowed address) or a member of the allowed set (that member); when a
non-empty requested value is outside the allowed set, no line is
uncommented. -/
theorem replyToMenu_uncommented (ident : Identity) (requested : Option Str)
    (hlen : 1 < ident.reply_to.length) (hnodup : ident.reply_to.Nodup) :
    (replyToMenu ident requested).filter (fun l => !(lit "#").isPrefixOf l) =
      (if pyTruthy requested then
        (if requested.getD [] ∈ ident.reply_to
         then [lit "Reply-To: " ++ requested.getD []] else [])
       else [lit "Reply-To: " ++ ident.reply_to.headD []]) := by
  rw [replyToMenu_filter]
  have hfix : ∀ a : Str, a ∈ ident.reply_to →
      ident.reply_to.filter (fun rt => rt = a) = [a] := by
    intro a
    have hgen : ∀ l : List Str, l.Nodup → a ∈ l → l.filter (fun rt => rt = a) = [a] := by
      intro l hnd ham
      induction l with
      | nil => simp at ham
      | cons x t ih =>
        rcases List.mem_cons.mp ham with rfl | hmem
        · have hx := (List.nodup_cons.mp hnd).1
          rw [List.filter_cons_of_pos (by simp)]
          rw [List.filter_eq_nil_iff.mpr (by intro b hb; simp; rintro rfl; exact hx hb)]
        · have hne : x ≠ a := by rintro rfl; exact (List.nodup_cons.mp hnd).1 hmem
          rw [List.filter_cons_of_neg (by simp [hne])]
          exact ih (List.nodup_cons.mp hnd).2 hmem
    exact hgen ident.reply_to hnodup
  by_cases ht : pyTruthy requested = true
  · simp only [ht, if_pos]
    by_cases hm : requested.getD [] ∈ ident.reply_to
    · rw [hfix _ hm]
      simp [hm]
    · rw [List.filter_eq_nil_iff.mpr (by intro a ha; simp; rintro rfl; exact hm ha)]
      simp [hm]
  · simp only [Bool.not_eq_true] at ht
    simp only [ht, Bool.false_eq_true, if_false]
    have hne : ident.reply_to ≠ [] := by
      intro h; rw [h] at hlen; simp at hlen
    have hh : ident.reply_to.headD [] ∈ ident.reply_to := by
      cases hr : ident.reply_to with
      | nil => exact absurd hr hne
      | cons a t => simp
    rw [hfix _ hh]
    simp

/-- Witness for C7 (amended) at the two-address identity with an
in-set requested reply-to. -/
theorem replyToMenu_uncommented_witness :
    (replyToMenu twoReplyIdentity (some (lit "alias@example.com"))).filter
        (fun l => !(lit "#").isPrefixOf l) =
      [lit "Reply-To: " ++ lit "alias@example.com"] := by
  have h := replyToMenu_uncommented twoReplyIdentity (some (lit "alias@example.com"))
    (by decide) (by decide)
  rw [h]
  decide

/-! ### C6 infrastructure: splitting the rendered template into lines -/

theorem splitOn_append_cons (x : Char) (u v : Str) :
    List.splitOn x (u ++ x :: v) = List.splitOn x u ++ List.splitOn x v := by
  induction u with
  | nil =>
    rw [List.nil_append, List.splitOn, List.splitOnP_cons]
    simp [List.splitOn, List.splitOnP_nil]
  | cons c t ih =>
    show List.splitOnP (· == x) (c :: (t ++ x :: v)) =
      List.splitOnP (· == x) (c :: t) ++ List.splitOn x v
    rw [List.splitOnP_cons, List.splitOnP_cons]
    have iht : List.splitOnP (· == x) (t ++ x :: v) =
        List.splitOnP (· == x) t ++ List.splitOn x v := ih
    by_cases hc : (c == x) = true
    · rw [if_pos hc, if_pos hc, iht]
      rfl
    · rw [if_neg hc, if_neg hc, iht]
      cases hs : List.splitOnP (· == x) t with
      | nil => exact absurd hs (List.splitOnP_ne_nil _ _)
      | cons h0 hs' => simp

theorem splitOn_eq_single (x : Char) (l : Str) (h : x ∉ l) :
    List.splitOn x l = [l] := by
  apply List.splitOnP_eq_single
  intro a ha
  simp
  rintro rfl
  exact h ha

theorem intercalate_cons_ne (sep : Str) (a : Str) (ls : List Str) (h : ls ≠ []) :
    List.intercalate sep (a :: ls) = a ++ sep ++ List.intercalate sep ls := by
  cases ls with
  | nil => exact absurd rfl h
  | cons b t => simp [List.intercalate, List.intersperse]

theorem splitOn_intercalate_flat (x : Char) (ls : List Str) (h : ls ≠ []) :
    List.splitOn x (List.intercalate [x] ls) = ls.flatMap (List.splitOn x) := by
  induction ls with
  | nil => exact absurd rfl h
  | cons a t ih =>
    cases t with
    | nil => simp [List.intercalate, List.intersperse]
    | cons b t' =>
      rw [intercalate_cons_ne _ _ _ (by simp)]
      rw [List.append_assoc, List.singleton_append, splitOn_append_cons]
      rw [ih (by simp)]
      rfl

/-! ### C6 infrastructure: strip lemmas -/

theorem pyStrip_cons_ws (c : Char) (s : Str) (hc : isPySpace c = true) :
    pyStrip (c :: s) = pyStrip s := by
  simp [pyStrip, pyStripLeft, List.dropWhile_cons, hc]

theorem dropWhile_append_last {c : Char} (hc : isPySpace c = false) :
    ∀ u : Str, ∃ w, List.dropWhile isPySpace (u ++ [c]) = w ++ [c] := by
  intro u
  induction u with
  | nil => exact ⟨[], by simp [List.dropWhile_cons, hc]⟩
  | cons d u' ih =>
    by_cases hd : isPySpace d = true
    · obtain ⟨w, hw⟩ := ih
      exact ⟨w, by simp [List.dropWhile_cons, hd, hw]⟩
    · exact ⟨d :: u', by simp [List.dropWhile_cons, hd]⟩

theorem pyStrip_cons_head (c : Char) (s : Str) (hc : isPySpace c = false) :
    ∃ t, pyStrip (c :: s) = c :: t := by
  have h1 : pyStripLeft (c :: s) = c :: s := by
    simp [pyStripLeft, List.dropWhile_cons, hc]
  rw [pyStrip, h1, pyStripRight]
  have h2 : (c :: s).reverse = s.reverse ++ [c] := by simp
  rw [h2]
  obtain ⟨w, hw⟩ := dropWhile_append_last hc s.reverse
  exact ⟨w.reverse, by rw [hw]; simp⟩

theorem pyStrip_head_ne_sep (c : Char) (s : Str) (hc : isPySpace c = false)
    (hne : c ≠ '-') : ¬ (pyStrip (c :: s) = TEMPLATE_SEPARATOR) := by
  obtain ⟨t, ht⟩ := pyStrip_cons_head c s hc
  rw [ht]
  intro h
  rw [show TEMPLATE_SEPARATOR = '-' :: lit "--" from rfl] at h
  injection h with h1 _
  exact hne h1

theorem pyStrip_append_space {s : Str} (hne : s ≠ []) (hs : pyStrip s = s) :
    pyStrip (s ++ [' ']) = s := by
  have hh := headOk_of_pyStrip hs
  have hl := lastOk_of_pyStrip hs
  have h1 : pyStripLeft (s ++ [' ']) = s ++ [' '] :=
    pyStripLeft_of_headOk (headOk_append_left hne hh)
  rw [pyStrip, h1, pyStripRight]
  rw [List.reverse_append]
  simp only [List.reverse_singleton, List.singleton_append, List.dropWhile_cons]
  rw [show isPySpace ' ' = true from rfl]
  simp only [if_pos trivial, reduceIte]
  have : List.dropWhile isPySpace s.reverse = s.reverse := pyStripLeft_of_headOk hl
  rw [this, List.reverse_reverse]

theorem takeWhile_append_all {p : Char → Bool} {k : Str} (v : Str)
    (hk : ∀ c ∈ k, p c = true) :
    List.takeWhile p (k ++ v) = k ++ List.takeWhile p v := by
  rw [List.takeWhile_append]
  rw [List.takeWhile_eq_self_iff.mpr hk]
  simp

theorem dropWhile_append_all {p : Char → Bool} {k : Str} (v : Str)
    (hk : ∀ c ∈ k, p c = true) :
    List.dropWhile p (k ++ v) = List.dropWhile p v := by
  rw [List.dropWhile_append]
  rw [List.dropWhile_eq_nil_iff.mpr hk]
  simp

/-! ### C6 infrastructure: the `"  #"` annotation boundary -/

theorem stripNote_of_no_marker {v : Str} (h : hasSub noteMarker v = false) :
    stripNote v = v := by
  simp [stripNote, h]

theorem subFindIdx_cons_unfold (sep : Str) (c : Char) (t : Str) :
    subFindIdx sep (c :: t) =
      if sep.isPrefixOf (c :: t) then some 0 else (subFindIdx sep t).map (· + 1) := by
  rw [subFindIdx.eq_def]

theorem subFindIdx_note_boundary (fv rest : Str)
    (h : subFindIdx noteMarker fv = none) :
    subFindIdx noteMarker (fv ++ (noteMarker ++ rest)) = some fv.length := by
  induction fv with
  | nil =>
    rw [List.nil_append, subFindIdx.eq_def,
        if_pos (List.isPrefixOf_iff_prefix.mpr (List.prefix_append _ _))]
    rfl
  | cons c t ih =>
    rw [subFindIdx_cons_unfold] at h
    by_cases hp : noteMarker.isPrefixOf (c :: t) = true
    · rw [if_pos hp] at h
      exact Option.noConfusion h
    · rw [if_neg (by simpa using hp)] at h
      have ht : subFindIdx noteMarker t = none := by
        cases hx : subFindIdx noteMarker t with
        | none => rfl
        | some j => rw [hx] at h; exact Option.noConfusion h
      have hnp : noteMarker.isPrefixOf (c :: (t ++ (noteMarker ++ rest))) = false := by
        cases hteq : t with
        | nil =>
          rw [show noteMarker = ' ' :: ' ' :: '#' :: [] from rfl]
          simp [List.isPrefixOf]
        | cons b t2 =>
          cases ht2eq : t2 with
          | nil =>
            rw [show noteMarker = ' ' :: ' ' :: '#' :: [] from rfl]
            simp [List.isPrefixOf]
          | cons d t3 =>
            by_contra hcon
            simp only [Bool.not_eq_false] at hcon
            obtain ⟨u, hu⟩ := List.isPrefixOf_iff_prefix.mp hcon
            rw [show noteMarker = ' ' :: ' ' :: '#' :: [] from rfl] at hu
            simp only [List.cons_append, List.append_assoc, List.cons.injEq] at hu
            obtain ⟨hc1, hb1, hd1, -⟩ := hu
            have hccon : noteMarker.isPrefixOf (c :: t) = true := by
              rw [hteq, ht2eq, ← hc1, ← hb1, ← hd1,
                  show noteMarker = ' ' :: ' ' :: '#' :: [] from rfl]
              simp [List.isPrefixOf]
            exact hp hccon
      rw [List.cons_append, subFindIdx_cons_unfold, hnp]
      simp only [Bool.false_eq_true, if_false]
      rw [ih ht]
      rfl

theorem takeBeforeSub_of_some {sep s : Str} {i : Nat} (h : subFindIdx sep s = some i) :
    takeBeforeSub sep s = s.take i := by
  simp [takeBeforeSub, h]

theorem stripNote_boundary (fv rest : Str) (hfv : hasSub noteMarker fv = false)
    (hstrip : pyStrip fv = fv) :
    stripNote (fv ++ (noteMarker ++ rest)) = fv := by
  have hnone : subFindIdx noteMarker fv = none := by
    cases hx : subFindIdx noteMarker fv with
    | none => rfl
    | some j => rw [hasSub, hx] at hfv; exact Bool.noConfusion hfv
  have hidx := subFindIdx_note_boundary fv rest hnone
  have htake : (fv ++ (noteMarker ++ rest)).take fv.length = fv := List.take_left _ _
  rw [stripNote, hasSub, hidx, takeBeforeSub_of_some hidx, htake]
  simp [hstrip]

/-! ### C6 infrastructure: processing one header line -/

theorem headerStep_blank (hs : List (Str × Str)) (l : Str) (h : pyStrip l = []) :
    headerStep hs l = hs := by
  simp [headerStep, h]

theorem headerStep_hashline (hs : List (Str × Str)) (s : Str) :
    headerStep hs ('#' :: s) = hs := by
  obtain ⟨t, ht⟩ := pyStrip_cons_head '#' s (by rfl)
  rw [headerStep]
  rw [ht]
  simp [List.isPrefixOf]

theorem addHeader_fresh (hs : List (Str × Str)) (k v : Str)
    (h : hs.find? (fun kv => kv.1 = k) = none) :
    addHeader hs k v = hs ++ [(k, v)] := by
  simp [addHeader, h]

theorem getHeader_cons_eq (k v : Str) (hs : List (Str × Str)) :
    getHeader ((k, v) :: hs) k = v := by
  simp [getHeader, List.find?_cons_of_pos]

theorem getHeader_cons_ne {k1 k : Str} (v : Str) (hs : List (Str × Str)) (h : k1 ≠ k) :
    getHeader ((k1, v) :: hs) k = getHeader hs k := by
  simp [getHeader, List.find?_cons_of_neg, h]

theorem headerStep_stripped (hs : List (Str × Str)) (raw key v : Str)
    (hraw : pyStrip raw = key ++ ':' :: v)
    (hhash : (lit "#").isPrefixOf (key ++ ':' :: v) = false)
    (hcolon : ':' ∉ key)
    (hkstrip : pyStrip key = key) :
    headerStep hs raw = addHeader hs (pyLower key) (stripNote (pyStrip v)) := by
  have hkeyall : ∀ c ∈ key, (fun x => decide (x ≠ ':')) c = true := by
    intro c hc
    simp
    rintro rfl
    exact hcolon hc
  have htake : (key ++ ':' :: v).takeWhile (· ≠ ':') = key := by
    rw [takeWhile_append_all _ hkeyall]
    simp [List.takeWhile_cons]
  have hdrop : (key ++ ':' :: v).dropWhile (· ≠ ':') = ':' :: v := by
    rw [dropWhile_append_all _ hkeyall]
    simp [List.dropWhile_cons]
  have hcond : ¬ (key ++ ':' :: v = [] ∨ (lit "#").isPrefixOf (key ++ ':' :: v) = true) := by
    rintro (hc | hc)
    · simp at hc
    · rw [hhash] at hc
      exact Bool.noConfusion hc
  have hmem : ':' ∈ key ++ ':' :: v := by simp
  simp only [headerStep, hraw]
  rw [if_neg hcond, if_pos hmem, htake, hdrop, List.tail_cons, hkstrip]

/-! ### C6 infrastructure: locating the separator and splitting addresses -/

theorem findIdx?_pre (p : Str → Bool) (pre : List Str) (x : Str) (post : List Str)
    (h : ∀ l ∈ pre, p l = false) (hx : p x = true) :
    (pre ++ x :: post).findIdx? p = some pre.length := by
  rw [List.findIdx?_append, List.findIdx?_eq_none_iff.mpr h]
  rw [List.findIdx?_cons, if_pos hx]
  simp

theorem count_one_decomp {l : List Str} {a : Str} (h : l.count a = 1) :
    ∃ s t, l = s ++ a :: t ∧ a ∉ s ∧ a ∉ t := by
  have hm : a ∈ l := List.count_pos_iff_mem.mp (by omega)
  obtain ⟨s, t, rfl⟩ := List.append_of_mem hm
  rw [List.count_append, List.count_cons_self] at h
  refine ⟨s, t, rfl, ?_, ?_⟩
  · exact List.count_eq_zero.mp (by omega)
  · exact List.count_eq_zero.mp (by omega)

theorem map_pyStrip_modifyHead_space (L : List Str) (hL : L ≠ []) :
    (L.modifyHead (List.cons ' ')).map pyStrip = L.map pyStrip := by
  cases L with
  | nil => exact absurd rfl hL
  | cons h t => simp [List.modifyHead, pyStrip_cons_space]

theorem splitAddrs_join (l : List Str)
    (h : ∀ a ∈ l, a ≠ [] ∧ pyStrip a = a ∧ ',' ∉ a) :
    splitAddrs (joinCommaSpace l) = l := by
  induction l with
  | nil => rfl
  | cons a rest ih =>
    obtain ⟨hane, hastrip, hacomma⟩ := h a (by simp)
    cases rest with
    | nil =>
      have hj : joinCommaSpace [a] = a := by
        simp [joinCommaSpace, List.intercalate, List.intersperse]
      rw [hj, splitAddrs, splitOn_eq_single ',' a hacomma]
      simp [hastrip, hane]
    | cons b t =>
      have hj : joinCommaSpace (a :: b :: t) =
          a ++ ',' :: (' ' :: joinCommaSpace (b :: t)) := by
        rw [joinCommaSpace, intercalate_cons_ne _ _ _ (by simp)]
        rw [List.append_assoc]
        rfl
      rw [hj, splitAddrs]
      have hsplit1 : List.splitOn ',' (a ++ ',' :: (' ' :: joinCommaSpace (b :: t))) =
          a :: List.splitOn ',' (' ' :: joinCommaSpace (b :: t)) := by
        apply List.splitOnP_first
        · intro x hx
          simp
          rintro rfl
          exact hacomma hx
        · simp
      have hsplit2 : List.splitOn ',' (' ' :: joinCommaSpace (b :: t)) =
          (List.splitOn ',' (joinCommaSpace (b :: t))).modifyHead (List.cons ' ') := by
        rw [List.splitOn, List.splitOnP_cons]
        simp [List.splitOn]
      have hnn : List.splitOn ',' (joinCommaSpace (b :: t)) ≠ [] :=
        List.splitOnP_ne_nil _ _
      rw [hsplit1, hsplit2, List.map_cons, map_pyStrip_modifyHead_space _ hnn]
      rw [List.filter_cons_of_pos (by simp [hastrip, hane])]
      have := ih (fun x hx => h x (by simp [hx]))
      rw [splitAddrs] at this
      rw [this, hastrip]

/-! ### C6 infrastructure: shapes of the rendered lines -/

theorem hash_prefix_false (k0 : Char) (rest : Str) (h : k0 ≠ '#') :
    (lit "#").isPrefixOf (k0 :: rest) = false := by
  rw [show lit "#" = '#' :: [] from rfl]
  simp [List.isPrefixOf]
  rintro rfl
  exact h rfl

theorem pyStrip_append_colon_space (k0 : Char) (kt : Str) (hk0 : isPySpace k0 = false) :
    pyStrip ((k0 :: kt) ++ [':', ' ']) = (k0 :: kt) ++ [':'] := by
  have h1 : pyStripLeft ((k0 :: kt) ++ [':', ' ']) = (k0 :: kt) ++ [':', ' '] :=
    pyStripLeft_of_headOk (headOk_append_left (by simp) (by simp [headOk, hk0]))
  rw [pyStrip, h1, pyStripRight]
  have h2 : ((k0 :: kt) ++ [':', ' ']).reverse = ' ' :: ':' :: (k0 :: kt).reverse := by
    simp
  rw [h2, show List.dropWhile isPySpace (' ' :: ':' :: (k0 :: kt).reverse) =
    ':' :: (k0 :: kt).reverse from rfl]
  simp

theorem headerStep_keyline (hs : List (Str × Str)) (k0 : Char) (kt jv : Str)
    (hk0hash : k0 ≠ '#') (hk0ws : isPySpace k0 = false)
    (hcolon : ':' ∉ (k0 :: kt)) (hkstrip : pyStrip (k0 :: kt) = k0 :: kt)
    (hjv_strip : pyStrip jv = jv) (hjv_note : hasSub noteMarker jv = false) :
    headerStep hs ((k0 :: kt) ++ lit ": " ++ jv) = addHeader hs (pyLower (k0 :: kt)) jv := by
  cases hjv : jv with
  | nil =>
    have hshape : (k0 :: kt) ++ lit ": " ++ ([] : Str) = (k0 :: kt) ++ [':', ' '] := by
      simp [lit]
    rw [hshape]
    rw [headerStep_stripped hs _ (k0 :: kt) []
      (pyStrip_append_colon_space k0 kt hk0ws)
      (hash_prefix_false k0 _ hk0hash)
      hcolon hkstrip]
    rfl
  | cons j0 jt =>
    rw [← hjv]
    have hjvne : jv ≠ [] := by rw [hjv]; simp
    have hshape : (k0 :: kt) ++ lit ": " ++ jv = (k0 :: kt) ++ ':' :: (' ' :: jv) := by
      rw [List.append_assoc]
      rfl
    rw [hshape]
    have hraw : pyStrip ((k0 :: kt) ++ ':' :: (' ' :: jv)) = (k0 :: kt) ++ ':' :: (' ' :: jv) := by
      apply pyStrip_eq_self
      · exact headOk_append_left (by simp) (by simp [headOk, hk0ws])
      · have : (k0 :: kt) ++ ':' :: (' ' :: jv) = ((k0 :: kt) ++ [':', ' ']) ++ jv := by
          simp
        rw [this]
        exact lastOk_append_right hjvne (lastOk_of_pyStrip hjv_strip)
    rw [headerStep_stripped hs _ (k0 :: kt) (' ' :: jv) hraw
      (hash_prefix_false k0 _ hk0hash) hcolon hkstrip]
    rw [pyStrip_cons_space, hjv_strip, stripNote_of_no_marker hjv_note]

theorem headerStep_fromline (hs : List (Str × Str)) (fv nm : Str)
    (hfv_ne : fv ≠ []) (hfv_strip : pyStrip fv = fv)
    (hfv_note : hasSub noteMarker fv = false) :
    headerStep hs (lit "From: " ++ fv ++ lit "  # [" ++ nm ++ lit "]") =
      addHeader hs (lit "from") fv := by
  have hshape : lit "From: " ++ fv ++ lit "  # [" ++ nm ++ lit "]" =
      lit "From" ++ ':' :: (' ' :: (fv ++ (noteMarker ++ (lit " [" ++ (nm ++ lit "]"))))) := by
    simp only [List.append_assoc]
    rfl
  have htail_ne : fv ++ (noteMarker ++ (lit " [" ++ (nm ++ lit "]"))) ≠ [] := by
    intro hc
    rw [List.append_eq_nil] at hc
    obtain ⟨-, hc2⟩ := hc
    rw [List.append_eq_nil] at hc2
    exact absurd hc2.1 (by decide)
  have htail_strip : pyStrip (fv ++ (noteMarker ++ (lit " [" ++ (nm ++ lit "]")))) =
      fv ++ (noteMarker ++ (lit " [" ++ (nm ++ lit "]"))) := by
    apply pyStrip_eq_self
    · exact headOk_append_left hfv_ne (headOk_of_pyStrip hfv_strip)
    · have hre : fv ++ (noteMarker ++ (lit " [" ++ (nm ++ lit "]"))) =
          (fv ++ (noteMarker ++ (lit " [" ++ nm))) ++ lit "]" := by
        simp [List.append_assoc]
      rw [hre]
      exact lastOk_append_right (by simp [lit]) (by rfl)
  have hraw : pyStrip (lit "From" ++ ':' :: (' ' :: (fv ++ (noteMarker ++ (lit " [" ++ (nm ++ lit "]")))))) =
      lit "From" ++ ':' :: (' ' :: (fv ++ (noteMarker ++ (lit " [" ++ (nm ++ lit "]"))))) := by
    apply pyStrip_eq_self
    · exact headOk_append_left (by simp [lit]) (by rfl)
    · have hre : lit "From" ++ ':' :: (' ' :: (fv ++ (noteMarker ++ (lit " [" ++ (nm ++ lit "]"))))) =
          (lit "From" ++ ':' :: ' ' :: (fv ++ (noteMarker ++ lit " [" ++ nm))) ++ lit "]" := by
        simp [List.append_assoc]
      rw [hre]
      exact lastOk_append_right (by simp [lit]) (by rfl)
  rw [hshape]
  rw [headerStep_stripped hs _ (lit "From") (' ' :: (fv ++ (noteMarker ++ (lit " [" ++ (nm ++ lit "]")))))
    hraw (by rfl) (by decide) (by rfl)]
  rw [pyStrip_cons_space, htail_strip,
      stripNote_boundary fv _ hfv_note hfv_strip]
  rfl

/-! ### C6 infrastructure: menu line shapes and skipped lines -/

theorem lit_hash_append (X : Str) : lit "#" ++ X = '#' :: X := rfl

theorem fromMenuLine_not_selected (sel i : Identity) (cdn : Option Str)
    (h : i ≠ sel) :
    ∃ s, fromMenuLine (some sel) cdn i = '#' :: s := by
  have hne : ¬ (some sel = some i) := by
    intro hc
    injection hc with hc2
    exact h hc2.symm
  refine ⟨lit "From: " ++ fromValueOf i.display_name i.email ++ lit "  # [" ++ i.name ++ lit "]", ?_⟩
  simp only [fromMenuLine]
  rw [if_neg hne, if_neg (fun hc => hne (And.left hc))]
  rw [show lit "#" ++ lit "From: " = '#' :: lit "From: " from lit_hash_append _]
  simp only [List.cons_append]

theorem fromMenuLine_selected (sel : Identity) :
    fromMenuLine (some sel) none sel =
      lit "From: " ++ fromValueOf sel.display_name sel.email ++ lit "  # [" ++ sel.name ++ lit "]" := by
  simp [fromMenuLine, pyTruthy]

theorem foldl_headerStep_hashlines (L : List Str) (hs : List (Str × Str))
    (h : ∀ l ∈ L, ∃ s, l = '#' :: s) :
    L.foldl headerStep hs = hs := by
  induction L generalizing hs with
  | nil => rfl
  | cons x t ih =>
    obtain ⟨s, hsx⟩ := h x (by simp)
    rw [List.foldl_cons, hsx, headerStep_hashline]
    exact ih hs (fun l hl => h l (by simp [hl]))

theorem noNl_joinCommaSpace (l : List Str) (h : ∀ a ∈ l, '\n' ∉ a) :
    '\n' ∉ joinCommaSpace l := by
  induction l with
  | nil => simp [joinCommaSpace, List.intercalate, List.intersperse]
  | cons a rest ih =>
    cases rest with
    | nil =>
      have : joinCommaSpace [a] = a := by
        simp [joinCommaSpace, List.intercalate, List.intersperse]
      rw [this]
      exact h a (by simp)
    | cons b t =>
      rw [joinCommaSpace, intercalate_cons_ne _ _ _ (by simp)]
      intro hmem
      rw [List.append_assoc] at hmem
      rcases List.mem_append.mp hmem with hin | hin
      · exact h a (by simp) hin
      · rcases List.mem_append.mp hin with hin2 | hin2
        · simp [lit] at hin2
        · exact ih (fun x hx => h x (by simp [hx])) hin2

theorem joinCommaSpace_strip (l : List Str) (h : ∀ a ∈ l, a ≠ [] ∧ pyStrip a = a) :
    pyStrip (joinCommaSpace l) = joinCommaSpace l := by
  cases l with
  | nil => rfl
  | cons a rest =>
    obtain ⟨hane, hastrip⟩ := h a (by simp)
    apply pyStrip_eq_self
    · cases rest with
      | nil =>
        have : joinCommaSpace [a] = a := by
          simp [joinCommaSpace, List.intercalate, List.intersperse]
        rw [this]
        exact headOk_of_pyStrip hastrip
      | cons b t =>
        rw [joinCommaSpace, intercalate_cons_ne _ _ _ (by simp)]
        rw [List.append_assoc]
        exact headOk_append_left hane (headOk_of_pyStrip hastrip)
    · induction rest generalizing a with
      | nil =>
        have : joinCommaSpace [a] = a := by
          simp [joinCommaSpace, List.intercalate, List.intersperse]
        rw [this]
        exact lastOk_of_pyStrip (h a (by simp)).2
      | cons b t ih =>
        rw [joinCommaSpace, intercalate_cons_ne _ _ _ (by simp), List.append_assoc]
        have hjoin_ne : joinCommaSpace (b :: t) ≠ [] := by
          obtain ⟨hbne, hbstrip⟩ := h b (by simp)
          cases t with
          | nil =>
            have : joinCommaSpace [b] = b := by
              simp [joinCommaSpace, List.intercalate, List.intersperse]
            rw [this]
            exact hbne
          | cons c u =>
            rw [joinCommaSpace, intercalate_cons_ne _ _ _ (by simp)]
            simp [hbne]
        apply lastOk_append_right
        · intro hc
          rw [List.append_eq_nil] at hc
          exact absurd hc.1 (by decide)
        · exact lastOk_append_right hjoin_ne
            (ih b (fun x hx => h x (List.mem_cons_of_mem _ hx))
              (h b (by simp)).1 (h b (by simp)).2)

theorem pyStrip_ne_sep_shape {l : Str} (c : Char) (hc : isPySpace c = false)
    (hne : c ≠ '-') (h : ∃ s, l = c :: s) :
    ¬ (pyStrip l = TEMPLATE_SEPARATOR) := by
  obtain ⟨s, rfl⟩ := h
  exact pyStrip_head_ne_sep c s hc hne

theorem fromMenuLine_ne_sep (selo : Option Identity) (cdn : Option Str) (i : Identity) :
    ¬ (pyStrip (fromMenuLine selo cdn i) = TEMPLATE_SEPARATOR) := by
  simp only [fromMenuLine]
  by_cases hsel : selo = some i
  · rw [if_pos hsel]
    exact pyStrip_ne_sep_shape 'F' (by decide) (by decide) ⟨_, rfl⟩
  · rw [if_neg hsel]
    exact pyStrip_ne_sep_shape '#' (by decide) (by decide) ⟨_, rfl⟩

theorem replyToMenu_ne_sep (ident : Identity) (ro : Option Str) :
    ∀ l ∈ replyToMenu ident ro, ¬ (pyStrip l = TEMPLATE_SEPARATOR) := by
  intro l hl
  simp only [replyToMenu] at hl
  obtain ⟨rt, -, rfl⟩ := List.mem_map.mp hl
  by_cases h : rt = (if pyTruthy ro = true then ro.getD [] else ident.reply_to.headD [])
  · rw [if_pos h]
    exact pyStrip_ne_sep_shape 'R' (by decide) (by decide) ⟨_, rfl⟩
  · rw [if_neg h]
    exact pyStrip_ne_sep_shape '#' (by decide) (by decide) ⟨_, rfl⟩

theorem flatMap_splitOn_noNl (L : List Str) (h : ∀ l ∈ L, '\n' ∉ l) :
    L.flatMap (List.splitOn '\n') = L := by
  induction L with
  | nil => rfl
  | cons x t ih =>
    rw [List.flatMap_cons, splitOn_eq_single '\n' x (h x (by simp)),
        ih (fun l hl => h l (by simp [hl]))]
    rfl

theorem replyToMenu_decomp (ident : Identity) (r : Str) (hr : r ≠ [])
    (rpre rpost : List Str) (hsplit : ident.reply_to = rpre ++ r :: rpost)
    (hpre : r ∉ rpre) (hpost : r ∉ rpost) :
    replyToMenu ident (some r) =
      rpre.map (fun rt => '#' :: (lit "Reply-To: " ++ rt))
        ++ (lit "Reply-To: " ++ r)
          :: rpost.map (fun rt => '#' :: (lit "Reply-To: " ++ rt)) := by
  have htr : pyTruthy (some r) = true := by simp [pyTruthy, hr]
  simp only [replyToMenu, htr, if_pos trivial, reduceIte, Option.getD_some, hsplit]
  rw [List.map_append, List.map_cons]
  congr 1
  · apply List.map_congr_left
    intro rt hrt
    rw [if_neg (by rintro rfl; exact hpre hrt)]
    rfl
  · congr 1
    · rw [if_pos rfl]
      rfl
    · apply List.map_congr_left
      intro rt hrt
      rw [if_neg (by rintro rfl; exact hpost hrt)]
      rfl

theorem noNl_fromMenuLine (selo : Option Identity) (i : Identity)
    (h1 : '\n' ∉ i.email) (h2 : '\n' ∉ i.display_name) (h3 : '\n' ∉ i.name) :
    '\n' ∉ fromMenuLine selo none i := by
  simp only [fromMenuLine]
  have hdn : (if (selo = some i) ∧ pyTruthy none = true then (none : Option Str).getD []
      else i.display_name) = i.display_name := by
    simp [pyTruthy]
  rw [hdn]
  intro hmem
  simp only [List.mem_append] at hmem
  rcases hmem with ((((hm | hm) | hm) | hm) | hm) | hm
  · revert hm
    split
    · simp
    · decide
  · exact absurd hm (by decide)
  · revert hm
    simp only [fromValueOf]
    split
    · intro hm
      simp only [List.mem_append] at hm
      rcases hm with ((hm2 | hm2) | hm2) | hm2
      · exact h2 hm2
      · exact absurd hm2 (by decide)
      · exact h1 hm2
      · exact absurd hm2 (by decide)
    · intro hm
      exact h1 hm
  · exact absurd hm (by decide)
  · exact h3 hm
  · exact absurd hm (by decide)

theorem noNl_replyToMenu (ident : Identity) (ro : Option Str)
    (h : ∀ rt ∈ ident.reply_to, '\n' ∉ rt) :
    ∀ l ∈ replyToMenu ident ro, '\n' ∉ l := by
  intro l hl
  simp only [replyToMenu] at hl
  obtain ⟨rt, hrt, rfl⟩ := List.mem_map.mp hl
  intro hmem
  simp only [List.mem_append] at hmem
  rcases hmem with (hm | hm) | hm
  · revert hm
    by_cases hc : rt = (if pyTruthy ro = true then ro.getD [] else ident.reply_to.headD [])
    · rw [if_pos hc]
      simp
    · rw [if_neg hc]
      decide
  · exact absurd hm (by decide)
  · exact h rt hrt hm

theorem generate_template_selected (config : Config) (recipients cc bcc : List Str)
    (nm : Str) (sel : Identity) (r subj b : Str)
    (hnm : nm ≠ []) (hget : config.get_identity nm = some sel)
    (hrts_ne : sel.reply_to ≠ []) :
    generate_template config recipients cc bcc (some nm) (some r) (some subj) (some b)
        none =
      List.intercalate (lit "\n")
        ([HEADER_INSTRUCTIONS, []]
          ++ [lit "# ┌─── FROM IDENTITY (select one) ───┐"]
          ++ config.identities.map (fromMenuLine (some sel) none)
          ++ [lit "# └────────────────────────────────────┘", []]
          ++ ([lit "# ┌─── REPLY-TO for [" ++ sel.name ++ lit "] (select one) ───┐"]
              ++ replyToMenu sel (some r)
              ++ [lit "# └──────────────────────────────────────────────┘", []])
          ++ [lit "To: " ++ joinCommaSpace recipients,
              lit "Cc: " ++ joinCommaSpace cc,
              lit "Bcc: " ++ joinCommaSpace bcc,
              lit "Subject: " ++ subj,
              [], TEMPLATE_SEPARATOR, []]
          ++ [b]) := by
  have hbody : (if b ≠ [] then b else []) = b := by
    by_cases hb : b = [] <;> simp [hb]
  simp only [generate_template]
  rw [show (if pyTruthy (some nm) = true then config.get_identity ((some nm).getD [])
      else none) = some sel by simp [pyTruthy, hnm, hget]]
  simp [hrts_ne, hbody]

theorem template_lines (config : Config) (recipients cc bcc : List Str)
    (nm : Str) (sel : Identity) (r subj b : Str)
    (hnm : nm ≠ []) (hget : config.get_identity nm = some sel)
    (hrts_ne : sel.reply_to ≠ [])
    (hids_nl : ∀ i ∈ config.identities,
      '\n' ∉ i.email ∧ '\n' ∉ i.display_name ∧ '\n' ∉ i.name)
    (hname_nl : '\n' ∉ sel.name)
    (hrts_nl : ∀ rt ∈ sel.reply_to, '\n' ∉ rt)
    (hto_nl : '\n' ∉ joinCommaSpace recipients)
    (hcc_nl : '\n' ∉ joinCommaSpace cc)
    (hbcc_nl : '\n' ∉ joinCommaSpace bcc)
    (hsubj_nl : '\n' ∉ subj) :
    (generate_template config recipients cc bcc (some nm) (some r) (some subj) (some b)
        none).splitOn '\n' =
      ([lit "# Terminal Mail - Email Composer",
        lit "# Lines starting with \x27#\x27 are comments and will be ignored.",
        lit "# Edit the headers and body below, then save and exit.",
        lit "#",
        lit "# FROM IDENTITY: Uncomment ONE line to select your sending identity.",
        lit "# DISPLAY NAME: Edit the name portion to customize (e.g., \"Custom Name <email>\").",
        lit "# REPLY-TO: Uncomment ONE line to select the reply-to address.",
        [], lit "# ┌─── FROM IDENTITY (select one) ───┐"]
        ++ config.identities.map (fromMenuLine (some sel) none)
        ++ [lit "# └────────────────────────────────────┘", [],
            lit "# ┌─── REPLY-TO for [" ++ sel.name ++ lit "] (select one) ───┐"]
        ++ replyToMenu sel (some r)
        ++ [lit "# └──────────────────────────────────────────────┘", [],
            lit "To: " ++ joinCommaSpace recipients,
            lit "Cc: " ++ joinCommaSpace cc,
            lit "Bcc: " ++ joinCommaSpace bcc,
            lit "Subject: " ++ subj,
            []])
        ++ TEMPLATE_SEPARATOR :: ([] :: b.splitOn '\n') := by
  rw [generate_template_selected config recipients cc bcc nm sel r subj b hnm hget hrts_ne,
      show (lit "\n" : Str) = ['\n'] from rfl,
      splitOn_intercalate_flat '\n' _ (by simp)]
  have hHI : List.splitOn '\n' HEADER_INSTRUCTIONS =
      [lit "# Terminal Mail - Email Composer",
       lit "# Lines starting with \x27#\x27 are comments and will be ignored.",
       lit "# Edit the headers and body below, then save and exit.",
       lit "#",
       lit "# FROM IDENTITY: Uncomment ONE line to select your sending identity.",
       lit "# DISPLAY NAME: Edit the name portion to customize (e.g., \"Custom Name <email>\").",
       lit "# REPLY-TO: Uncomment ONE line to select the reply-to address."] := by decide
  have hmap : (config.identities.map (fromMenuLine (some sel) none)).flatMap
      (List.splitOn '\n') = config.identities.map (fromMenuLine (some sel) none) := by
    apply flatMap_splitOn_noNl
    intro l hl
    obtain ⟨i, hi, rfl⟩ := List.mem_map.mp hl
    obtain ⟨he, hd, hn⟩ := hids_nl i hi
    exact noNl_fromMenuLine (some sel) i he hd hn
  have hmenu : (replyToMenu sel (some r)).flatMap (List.splitOn '\n') =
      replyToMenu sel (some r) :=
    flatMap_splitOn_noNl _ (noNl_replyToMenu sel (some r) hrts_nl)
  have hrHdr : List.splitOn '\n'
      (lit "# ┌─── REPLY-TO for [" ++ (sel.name ++ lit "] (select one) ───┐")) =
      [lit "# ┌─── REPLY-TO for [" ++ (sel.name ++ lit "] (select one) ───┐")] := by
    apply splitOn_eq_single
    intro hmem
    simp only [List.mem_append] at hmem
    rcases hmem with hm | hm | hm
    · exact absurd hm (by decide)
    · exact hname_nl hm
    · exact absurd hm (by decide)
  have hkv : ∀ (pfx jv : Str), '\n' ∉ pfx → '\n' ∉ jv →
      List.splitOn '\n' (pfx ++ jv) = [pfx ++ jv] := by
    intro pfx jv h1 h2
    apply splitOn_eq_single
    intro hmem
    rcases List.mem_append.mp hmem with hm | hm
    · exact h1 hm
    · exact h2 hm
  have htoL := hkv (lit "To: ") (joinCommaSpace recipients) (by decide) hto_nl
  have hccL := hkv (lit "Cc: ") (joinCommaSpace cc) (by decide) hcc_nl
  have hbccL := hkv (lit "Bcc: ") (joinCommaSpace bcc) (by decide) hbcc_nl
  have hsubjL := hkv (lit "Subject: ") subj (by decide) hsubj_nl
  have htop : List.splitOn '\n' (lit "# ┌─── FROM IDENTITY (select one) ───┐") =
      [lit "# ┌─── FROM IDENTITY (select one) ───┐"] := by decide
  have hbot : List.splitOn '\n' (lit "# └────────────────────────────────────┘") =
      [lit "# └────────────────────────────────────┘"] := by decide
  have hftr : List.splitOn '\n' (lit "# └──────────────────────────────────────────────┘") =
      [lit "# └──────────────────────────────────────────────┘"] := by decide
  have hsep2 : List.splitOn '\n' TEMPLATE_SEPARATOR = [TEMPLATE_SEPARATOR] := by decide
  simp only [List.flatMap_append, List.flatMap_cons, List.flatMap_nil, hHI, hmap, hmenu,
    hrHdr, htoL, hccL, hbccL, hsubjL, htop, hbot, hftr, hsep2]
  simp [List.append_assoc, hrHdr, htoL, hccL, hbccL, hsubjL, htop, hbot, hftr, hsep2]

/-- C6: round-trip of the template codec.  For a selected identity that
occurs exactly once, an in-set requested reply-to occurring exactly once
among the allowed addresses, and normalized collision-free fields (no
newlines inside rendered values, no embedded `<`/`>` in the From parts,
no `"  #"` comment-marker collisions, addresses stripped, non-empty and
comma-free, subject and body stripped), parsing the generated template
returns exactly the structured fields that were rendered. -/
theorem generate_parse_roundtrip (config : Config) (recipients cc bcc : List Str)
    (nm : Str) (sel : Identity) (ipre ipost : List Identity) (rpre rpost : List Str)
    (r subj b : Str)
    (hnm : nm ≠ []) (hget : config.get_identity nm = some sel)
    (hids_eq : config.identities = ipre ++ sel :: ipost)
    (hipre : sel ∉ ipre) (hipost : sel ∉ ipost)
    (hids_nl : ∀ i ∈ config.identities,
      '\n' ∉ i.email ∧ '\n' ∉ i.display_name ∧ '\n' ∉ i.name)
    (hemail_ne : sel.email ≠ []) (hemail_strip : pyStrip sel.email = sel.email)
    (hemail_lt : '<' ∉ sel.email) (hemail_gt : '>' ∉ sel.email)
    (hdn_strip : pyStrip sel.display_name = sel.display_name)
    (hdn_lt : '<' ∉ sel.display_name)
    (hfv_note : hasSub noteMarker (fromValueOf sel.display_name sel.email) = false)
    (hrts_eq : sel.reply_to = rpre ++ r :: rpost) (hrpre : r ∉ rpre) (hrpost : r ∉ rpost)
    (hrts_nl : ∀ rt ∈ sel.reply_to, '\n' ∉ rt)
    (hr_ne : r ≠ []) (hr_strip : pyStrip r = r) (hr_note : hasSub noteMarker r = false)
    (hto : ∀ a ∈ recipients, a ≠ [] ∧ pyStrip a = a ∧ ',' ∉ a ∧ '\n' ∉ a)
    (hcc : ∀ a ∈ cc, a ≠ [] ∧ pyStrip a = a ∧ ',' ∉ a ∧ '\n' ∉ a)
    (hbcc : ∀ a ∈ bcc, a ≠ [] ∧ pyStrip a = a ∧ ',' ∉ a ∧ '\n' ∉ a)
    (hto_note : hasSub noteMarker (joinCommaSpace recipients) = false)
    (hcc_note : hasSub noteMarker (joinCommaSpace cc) = false)
    (hbcc_note : hasSub noteMarker (joinCommaSpace bcc) = false)
    (hsubj_strip : pyStrip subj = subj) (hsubj_nl : '\n' ∉ subj)
    (hsubj_note : hasSub noteMarker subj = false)
    (hb_strip : pyStrip b = b) :
    parse_template (generate_template config recipients cc bcc (some nm) (some r)
        (some subj) (some b) none) =
      .ok { «to» := recipients, cc := cc, bcc := bcc,
            from_addr := sel.email,
            from_name := if sel.display_name = [] then none else some sel.display_name,
            reply_to := some r,
            subject := subj, body := b, cancelled := false } := by
  have hrts_ne : sel.reply_to ≠ [] := by rw [hrts_eq]; simp
  have hname_nl : '\n' ∉ sel.name := (hids_nl sel (by rw [hids_eq]; simp)).2.2
  have hto_nl : '\n' ∉ joinCommaSpace recipients :=
    noNl_joinCommaSpace recipients (fun a ha => (hto a ha).2.2.2)
  have hcc_nl : '\n' ∉ joinCommaSpace cc :=
    noNl_joinCommaSpace cc (fun a ha => (hcc a ha).2.2.2)
  have hbcc_nl : '\n' ∉ joinCommaSpace bcc :=
    noNl_joinCommaSpace bcc (fun a ha => (hbcc a ha).2.2.2)
  have hlines := template_lines config recipients cc bcc nm sel r subj b hnm hget hrts_ne
    hids_nl hname_nl hrts_nl hto_nl hcc_nl hbcc_nl hsubj_nl
  -- the pre-separator line block
  have hPREfalse : ∀ l ∈
      ([lit "# Terminal Mail - Email Composer",
        lit "# Lines starting with \x27#\x27 are comments and will be ignored.",
        lit "# Edit the headers and body below, then save and exit.",
        lit "#",
        lit "# FROM IDENTITY: Uncomment ONE line to select your sending identity.",
        lit "# DISPLAY NAME: Edit the name portion to customize (e.g., \"Custom Name <email>\").",
        lit "# REPLY-TO: Uncomment ONE line to select the reply-to address.",
        [], lit "# ┌─── FROM IDENTITY (select one) ───┐"]
        ++ config.identities.map (fromMenuLine (some sel) none)
        ++ [lit "# └────────────────────────────────────┘", [],
            lit "# ┌─── REPLY-TO for [" ++ sel.name ++ lit "] (select one) ───┐"]
        ++ replyToMenu sel (some r)
        ++ [lit "# └──────────────────────────────────────────────┘", [],
            lit "To: " ++ joinCommaSpace recipients,
            lit "Cc: " ++ joinCommaSpace cc,
            lit "Bcc: " ++ joinCommaSpace bcc,
            lit "Subject: " ++ subj,
            []]),
      (decide (pyStrip l = TEMPLATE_SEPARATOR)) = false := by
    intro l hl
    apply decide_eq_false
    rcases List.mem_append.mp hl with h1 | h1
    rotate_left
    · simp only [List.mem_cons, List.not_mem_nil, or_false] at h1
      rcases h1 with rfl | rfl | rfl | rfl | rfl | rfl | rfl
      · exact (by decide)
      · exact (by decide)
      · exact pyStrip_ne_sep_shape 'T' (by decide) (by decide) ⟨_, rfl⟩
      · exact pyStrip_ne_sep_shape 'C' (by decide) (by decide) ⟨_, rfl⟩
      · exact pyStrip_ne_sep_shape 'B' (by decide) (by decide) ⟨_, rfl⟩
      · exact pyStrip_ne_sep_shape 'S' (by decide) (by decide) ⟨_, rfl⟩
      · exact (by decide)
    rcases List.mem_append.mp h1 with h2 | h2
    rotate_left
    · exact replyToMenu_ne_sep sel (some r) l h2
    rcases List.mem_append.mp h2 with h3 | h3
    rotate_left
    · simp only [List.mem_cons, List.not_mem_nil, or_false] at h3
      rcases h3 with rfl | rfl | rfl
      · exact (by decide)
      · exact (by decide)
      · exact pyStrip_ne_sep_shape '#' (by decide) (by decide) ⟨_, rfl⟩
    rcases List.mem_append.mp h3 with h4 | h4
    rotate_left
    · obtain ⟨i, -, rfl⟩ := List.mem_map.mp h4
      exact fromMenuLine_ne_sep (some sel) none i
    · simp only [List.mem_cons, List.not_mem_nil, or_false] at h4
      rcases h4 with rfl | rfl | rfl | rfl | rfl | rfl | rfl | rfl | rfl
      all_goals decide
  obtain ⟨PRE, hPREdef⟩ : ∃ PRE : List Str, PRE =
      ([lit "# Terminal Mail - Email Composer",
        lit "# Lines starting with \x27#\x27 are comments and will be ignored.",
        lit "# Edit the headers and body below, then save and exit.",
        lit "#",
        lit "# FROM IDENTITY: Uncomment ONE line to select your sending identity.",
        lit "# DISPLAY NAME: Edit the name portion to customize (e.g., \"Custom Name <email>\").",
        lit "# REPLY-TO: Uncomment ONE line to select the reply-to address.",
        [], lit "# ┌─── FROM IDENTITY (select one) ───┐"]
        ++ config.identities.map (fromMenuLine (some sel) none)
        ++ [lit "# └────────────────────────────────────┘", [],
            lit "# ┌─── REPLY-TO for [" ++ sel.name ++ lit "] (select one) ───┐"]
        ++ replyToMenu sel (some r)
        ++ [lit "# └──────────────────────────────────────────────┘", [],
            lit "To: " ++ joinCommaSpace recipients,
            lit "Cc: " ++ joinCommaSpace cc,
            lit "Bcc: " ++ joinCommaSpace bcc,
            lit "Subject: " ++ subj,
            []]) := ⟨_, rfl⟩
  rw [← hPREdef] at hlines hPREfalse
  have hfind : ((generate_template config recipients cc bcc (some nm) (some r)
      (some subj) (some b) none).splitOn '\n').findIdx?
      (fun l => pyStrip l = TEMPLATE_SEPARATOR) = some PRE.length := by
    rw [hlines]
    exact findIdx?_pre _ PRE TEMPLATE_SEPARATOR ([] :: b.splitOn '\n') hPREfalse (by decide)
  -- strippedness of the joined address values
  have hjto_strip : pyStrip (joinCommaSpace recipients) = joinCommaSpace recipients :=
    joinCommaSpace_strip recipients (fun a ha => ⟨(hto a ha).1, (hto a ha).2.1⟩)
  have hjcc_strip : pyStrip (joinCommaSpace cc) = joinCommaSpace cc :=
    joinCommaSpace_strip cc (fun a ha => ⟨(hcc a ha).1, (hcc a ha).2.1⟩)
  have hjbcc_strip : pyStrip (joinCommaSpace bcc) = joinCommaSpace bcc :=
    joinCommaSpace_strip bcc (fun a ha => ⟨(hbcc a ha).1, (hbcc a ha).2.1⟩)
  -- the rendered From value
  have hfv_ne : fromValueOf sel.display_name sel.email ≠ [] := by
    by_cases hd : sel.display_name = [] <;> simp [fromValueOf, hd, hemail_ne]
  have hfv_strip : pyStrip (fromValueOf sel.display_name sel.email) =
      fromValueOf sel.display_name sel.email := by
    by_cases hd : sel.display_name = []
    · simp only [fromValueOf, hd, ne_eq, not_true_eq_false, if_false, reduceIte,
        not_not]
      simpa [hd] using hemail_strip
    · simp only [fromValueOf, ne_eq, hd, not_false_iff, if_pos trivial, reduceIte]
      apply pyStrip_eq_self
      · have hre : sel.display_name ++ lit " <" ++ sel.email ++ lit ">" =
            sel.display_name ++ (lit " <" ++ (sel.email ++ lit ">")) := by simp
        rw [hre]
        exact headOk_append_left hd (headOk_of_pyStrip hdn_strip)
      · exact lastOk_append_right (by decide) (by decide)
  -- one rewriting step per value-carrying header line
  have stepFrom : ∀ H, headerStep H (fromMenuLine (some sel) none sel) =
      addHeader H (lit "from") (fromValueOf sel.display_name sel.email) := by
    intro H
    rw [fromMenuLine_selected]
    exact headerStep_fromline H _ _ hfv_ne hfv_strip hfv_note
  have stepReply : ∀ H, headerStep H (lit "Reply-To: " ++ r) =
      addHeader H (lit "reply-to") r := by
    intro H
    rw [show (lit "Reply-To: " ++ r : Str) = ('R' :: lit "eply-To") ++ lit ": " ++ r
      from rfl]
    rw [headerStep_keyline H 'R' (lit "eply-To") r (by decide) (by decide) (by decide)
      (by decide) hr_strip hr_note]
    rfl
  have stepTo : ∀ H, headerStep H (lit "To: " ++ joinCommaSpace recipients) =
      addHeader H (lit "to") (joinCommaSpace recipients) := by
    intro H
    rw [show (lit "To: " ++ joinCommaSpace recipients : Str) =
      ('T' :: lit "o") ++ lit ": " ++ joinCommaSpace recipients from rfl]
    rw [headerStep_keyline H 'T' (lit "o") _ (by decide) (by decide) (by decide)
      (by decide) hjto_strip hto_note]
    rfl
  have stepCc : ∀ H, headerStep H (lit "Cc: " ++ joinCommaSpace cc) =
      addHeader H (lit "cc") (joinCommaSpace cc) := by
    intro H
    rw [show (lit "Cc: " ++ joinCommaSpace cc : Str) =
      ('C' :: lit "c") ++ lit ": " ++ joinCommaSpace cc from rfl]
    rw [headerStep_keyline H 'C' (lit "c") _ (by decide) (by decide) (by decide)
      (by decide) hjcc_strip hcc_note]
    rfl
  have stepBcc : ∀ H, headerStep H (lit "Bcc: " ++ joinCommaSpace bcc) =
      addHeader H (lit "bcc") (joinCommaSpace bcc) := by
    intro H
    rw [show (lit "Bcc: " ++ joinCommaSpace bcc : Str) =
      ('B' :: lit "cc") ++ lit ": " ++ joinCommaSpace bcc from rfl]
    rw [headerStep_keyline H 'B' (lit "cc") _ (by decide) (by decide) (by decide)
      (by decide) hjbcc_strip hbcc_note]
    rfl
  have stepSubj : ∀ H, headerStep H (lit "Subject: " ++ subj) =
      addHeader H (lit "subject") subj := by
    intro H
    rw [show (lit "Subject: " ++ subj : Str) =
      ('S' :: lit "ubject") ++ lit ": " ++ subj from rfl]
    rw [headerStep_keyline H 'S' (lit "ubject") _ (by decide) (by decide) (by decide)
      (by decide) hsubj_strip hsubj_note]
    rfl
  -- skipped lines
  have skipBlank : ∀ H : List (Str × Str), headerStep H [] = H :=
    fun H => headerStep_blank H [] rfl
  have skipI1 : ∀ H : List (Str × Str),
      headerStep H (lit "# Terminal Mail - Email Composer") = H :=
    fun H => headerStep_hashline H _
  have skipI2 : ∀ H : List (Str × Str),
      headerStep H (lit "# Lines starting with \x27#\x27 are comments and will be ignored.") = H :=
    fun H => headerStep_hashline H _
  have skipI3 : ∀ H : List (Str × Str),
      headerStep H (lit "# Edit the headers and body below, then save and exit.") = H :=
    fun H => headerStep_hashline H _
  have skipI4 : ∀ H : List (Str × Str), headerStep H (lit "#") = H :=
    fun H => headerStep_hashline H _
  have skipI5 : ∀ H : List (Str × Str),
      headerStep H (lit "# FROM IDENTITY: Uncomment ONE line to select your sending identity.") = H :=
    fun H => headerStep_hashline H _
  have skipI6 : ∀ H : List (Str × Str),
      headerStep H (lit "# DISPLAY NAME: Edit the name portion to customize (e.g., \"Custom Name <email>\").") = H :=
    fun H => headerStep_hashline H _
  have skipI7 : ∀ H : List (Str × Str),
      headerStep H (lit "# REPLY-TO: Uncomment ONE line to select the reply-to address.") = H :=
    fun H => headerStep_hashline H _
  have skipTop : ∀ H : List (Str × Str),
      headerStep H (lit "# ┌─── FROM IDENTITY (select one) ───┐") = H :=
    fun H => headerStep_hashline H _
  have skipBot : ∀ H : List (Str × Str),
      headerStep H (lit "# └────────────────────────────────────┘") = H :=
    fun H => headerStep_hashline H _
  have skipFtr : ∀ H : List (Str × Str),
      headerStep H (lit "# └──────────────────────────────────────────────┘") = H :=
    fun H => headerStep_hashline H _
  have skipHdr : ∀ H : List (Str × Str),
      headerStep H (lit "# ┌─── REPLY-TO for [" ++ sel.name ++ lit "] (select one) ───┐") = H :=
    fun H => headerStep_hashline H _
  -- folds over the commented menu lines
  have foldPre : ∀ H, (ipre.map (fromMenuLine (some sel) none)).foldl headerStep H = H := by
    intro H
    apply foldl_headerStep_hashlines
    intro l hl
    obtain ⟨i, hi, rfl⟩ := List.mem_map.mp hl
    exact fromMenuLine_not_selected sel i none (fun hc => hipre (hc ▸ hi))
  have foldPost : ∀ H, (ipost.map (fromMenuLine (some sel) none)).foldl headerStep H = H := by
    intro H
    apply foldl_headerStep_hashlines
    intro l hl
    obtain ⟨i, hi, rfl⟩ := List.mem_map.mp hl
    exact fromMenuLine_not_selected sel i none (fun hc => hipost (hc ▸ hi))
  have foldRpre : ∀ H,
      (rpre.map (fun rt => '#' :: (lit "Reply-To: " ++ rt))).foldl headerStep H = H := by
    intro H
    apply foldl_headerStep_hashlines
    intro l hl
    obtain ⟨rt, -, rfl⟩ := List.mem_map.mp hl
    exact ⟨_, rfl⟩
  have foldRpost : ∀ H,
      (rpost.map (fun rt => '#' :: (lit "Reply-To: " ++ rt))).foldl headerStep H = H := by
    intro H
    apply foldl_headerStep_hashlines
    intro l hl
    obtain ⟨rt, -, rfl⟩ := List.mem_map.mp hl
    exact ⟨_, rfl⟩
  -- accumulated header table
  have add1 : addHeader [] (lit "from") (fromValueOf sel.display_name sel.email) =
      [(lit "from", fromValueOf sel.display_name sel.email)] := rfl
  have add2 : addHeader [(lit "from", fromValueOf sel.display_name sel.email)]
      (lit "reply-to") r =
      [(lit "from", fromValueOf sel.display_name sel.email), (lit "reply-to", r)] := by
    simp [addHeader, List.find?,
      show decide ((lit "from" : Str) = lit "reply-to") = false from by decide]
  have add3 : addHeader
      [(lit "from", fromValueOf sel.display_name sel.email), (lit "reply-to", r)]
      (lit "to") (joinCommaSpace recipients) =
      [(lit "from", fromValueOf sel.display_name sel.email), (lit "reply-to", r),
       (lit "to", joinCommaSpace recipients)] := by
    simp [addHeader, List.find?,
      show decide ((lit "from" : Str) = lit "to") = false from by decide,
      show decide ((lit "reply-to" : Str) = lit "to") = false from by decide]
  have add4 : addHeader
      [(lit "from", fromValueOf sel.display_name sel.email), (lit "reply-to", r),
       (lit "to", joinCommaSpace recipients)]
      (lit "cc") (joinCommaSpace cc) =
      [(lit "from", fromValueOf sel.display_name sel.email), (lit "reply-to", r),
       (lit "to", joinCommaSpace recipients), (lit "cc", joinCommaSpace cc)] := by
    simp [addHeader, List.find?,
      show decide ((lit "from" : Str) = lit "cc") = false from by decide,
      show decide ((lit "reply-to" : Str) = lit "cc") = false from by decide,
      show decide ((lit "to" : Str) = lit "cc") = false from by decide]
  have add5 : addHeader
      [(lit "from", fromValueOf sel.display_name sel.email), (lit "reply-to", r),
       (lit "to", joinCommaSpace recipients), (lit "cc", joinCommaSpace cc)]
      (lit "bcc") (joinCommaSpace bcc) =
      [(lit "from", fromValueOf sel.display_name sel.email), (lit "reply-to", r),
       (lit "to", joinCommaSpace recipients), (lit "cc", joinCommaSpace cc),
       (lit "bcc", joinCommaSpace bcc)] := by
    simp [addHeader, List.find?,
      show decide ((lit "from" : Str) = lit "bcc") = false from by decide,
      show decide ((lit "reply-to" : Str) = lit "bcc") = false from by decide,
      show decide ((lit "to" : Str) = lit "bcc") = false from by decide,
      show decide ((lit "cc" : Str) = lit "bcc") = false from by decide]
  have add6 : addHeader
      [(lit "from", fromValueOf sel.display_name sel.email), (lit "reply-to", r),
       (lit "to", joinCommaSpace recipients), (lit "cc", joinCommaSpace cc),
       (lit "bcc", joinCommaSpace bcc)]
      (lit "subject") subj =
      [(lit "from", fromValueOf sel.display_name sel.email), (lit "reply-to", r),
       (lit "to", joinCommaSpace recipients), (lit "cc", joinCommaSpace cc),
       (lit "bcc", joinCommaSpace bcc), (lit "subject", subj)] := by
    simp [addHeader, List.find?,
      show decide ((lit "from" : Str) = lit "subject") = false from by decide,
      show decide ((lit "reply-to" : Str) = lit "subject") = false from by decide,
      show decide ((lit "to" : Str) = lit "subject") = false from by decide,
      show decide ((lit "cc" : Str) = lit "subject") = false from by decide,
      show decide ((lit "bcc" : Str) = lit "subject") = false from by decide]
  have hfold : PRE.foldl headerStep [] =
      [(lit "from", fromValueOf sel.display_name sel.email), (lit "reply-to", r),
       (lit "to", joinCommaSpace recipients), (lit "cc", joinCommaSpace cc),
       (lit "bcc", joinCommaSpace bcc), (lit "subject", subj)] := by
    rw [hPREdef, hids_eq, List.map_append, List.map_cons,
        replyToMenu_decomp sel r hr_ne rpre rpost hrts_eq hrpre hrpost]
    simp only [List.foldl_append, List.foldl_cons, List.foldl_nil]
    simp only [skipBlank, skipI1, skipI2, skipI3, skipI4, skipI5, skipI6, skipI7,
      skipTop, skipBot, skipFtr, skipHdr, foldPre, foldPost, foldRpre, foldRpost,
      stepFrom, stepReply, stepTo, stepCc, stepBcc, stepSubj,
      add1, add2, add3, add4, add5, add6]
  -- header table lookups
  obtain ⟨HD, hHD⟩ : ∃ HD : List (Str × Str), HD =
      [(lit "from", fromValueOf sel.display_name sel.email), (lit "reply-to", r),
       (lit "to", joinCommaSpace recipients), (lit "cc", joinCommaSpace cc),
       (lit "bcc", joinCommaSpace bcc), (lit "subject", subj)] := ⟨_, rfl⟩
  rw [← hHD] at hfold
  have gFrom : getHeader HD (lit "from") = fromValueOf sel.display_name sel.email := by
    rw [hHD, getHeader_cons_eq]
  have gReply : getHeader HD (lit "reply-to") = r := by
    rw [hHD, getHeader_cons_ne _ _ (by decide), getHeader_cons_eq]
  have gTo : getHeader HD (lit "to") = joinCommaSpace recipients := by
    rw [hHD, getHeader_cons_ne _ _ (by decide), getHeader_cons_ne _ _ (by decide),
        getHeader_cons_eq]
  have gCc : getHeader HD (lit "cc") = joinCommaSpace cc := by
    rw [hHD, getHeader_cons_ne _ _ (by decide), getHeader_cons_ne _ _ (by decide),
        getHeader_cons_ne _ _ (by decide), getHeader_cons_eq]
  have gBcc : getHeader HD (lit "bcc") = joinCommaSpace bcc := by
    rw [hHD, getHeader_cons_ne _ _ (by decide), getHeader_cons_ne _ _ (by decide),
        getHeader_cons_ne _ _ (by decide), getHeader_cons_ne _ _ (by decide),
        getHeader_cons_eq]
  have gSubj : getHeader HD (lit "subject") = subj := by
    rw [hHD, getHeader_cons_ne _ _ (by decide), getHeader_cons_ne _ _ (by decide),
        getHeader_cons_ne _ _ (by decide), getHeader_cons_ne _ _ (by decide),
        getHeader_cons_ne _ _ (by decide), getHeader_cons_eq]
  -- the post-separator block and the body
  have hdropeq : (PRE ++ TEMPLATE_SEPARATOR :: ([] :: b.splitOn '\n')).drop
      (PRE.length + 1) = [] :: b.splitOn '\n' := by
    rw [show PRE ++ TEMPLATE_SEPARATOR :: ([] :: b.splitOn '\n') =
        (PRE ++ [TEMPLATE_SEPARATOR]) ++ ([] :: b.splitOn '\n') from by simp,
      show PRE.length + 1 = (PRE ++ [TEMPLATE_SEPARATOR]).length from by simp]
    exact List.drop_left _ _
  have hsplitb : b.splitOn '\n' ≠ [] := by
    rw [List.splitOn]
    exact List.splitOnP_ne_nil _ _
  have hbody : pyStrip (List.intercalate (lit "\n") ([] :: b.splitOn '\n')) = b := by
    rw [intercalate_cons_ne (lit "\n") [] (b.splitOn '\n') hsplitb]
    rw [show (lit "\n" : Str) = ['\n'] from rfl, List.intercalate_splitOn]
    simp only [List.nil_append, List.singleton_append]
    rw [pyStrip_cons_ws '\n' b (by decide)]
    exact hb_strip
  -- unfold the parser at the found separator
  simp only [parse_template]
  simp only [hfind]
  rw [hlines, List.take_left, hdropeq, hfold]
  rw [gFrom, gReply, gTo, gCc, gBcc, gSubj]
  rw [splitAddrs_join recipients
        (fun a ha => ⟨(hto a ha).1, (hto a ha).2.1, (hto a ha).2.2.1⟩),
      splitAddrs_join cc
        (fun a ha => ⟨(hcc a ha).1, (hcc a ha).2.1, (hcc a ha).2.2.1⟩),
      splitAddrs_join bcc
        (fun a ha => ⟨(hbcc a ha).1, (hbcc a ha).2.1, (hbcc a ha).2.2.1⟩),
      stripNote_of_no_marker hr_note, hbody]
  rw [if_pos hr_ne]
  -- the From value split
  by_cases hd : sel.display_name = []
  · have hFV : fromValueOf sel.display_name sel.email = sel.email := by
      simp [fromValueOf, hd]
    rw [hFV, if_neg (fun hcon => hemail_lt hcon.1), if_pos hd]
  · have hFV : fromValueOf sel.display_name sel.email =
        sel.display_name ++ (' ' :: '<' :: (sel.email ++ ['>'])) := by
      rw [fromValueOf, if_pos hd]
      simp
      rfl
    have hdnP : ∀ c ∈ sel.display_name, (decide (c ≠ '<')) = true :=
      fun c hc => decide_eq_true (fun h => hdn_lt (h ▸ hc))
    have hemP1 : ∀ c ∈ sel.email, (decide (c ≠ '<')) = true :=
      fun c hc => decide_eq_true (fun h => hemail_lt (h ▸ hc))
    have hemP2 : ∀ c ∈ sel.email, (decide (c ≠ '>')) = true :=
      fun c hc => decide_eq_true (fun h => hemail_gt (h ▸ hc))
    have hcond : '<' ∈ fromValueOf sel.display_name sel.email ∧
        '>' ∈ fromValueOf sel.display_name sel.email := by
      rw [hFV]
      exact ⟨List.mem_append.mpr (Or.inr (by simp)),
             List.mem_append.mpr (Or.inr (by simp))⟩
    have hpart0 : (fromValueOf sel.display_name sel.email).takeWhile (· ≠ '<') =
        sel.display_name ++ [' '] := by
      rw [hFV, List.takeWhile_append, List.takeWhile_eq_self_iff.mpr hdnP]
      simp
    have hdw : (fromValueOf sel.display_name sel.email).dropWhile (· ≠ '<') =
        '<' :: (sel.email ++ ['>']) := by
      rw [hFV, List.dropWhile_append, List.dropWhile_eq_nil_iff.mpr hdnP]
      simp
    have htw1 : (sel.email ++ ['>']).takeWhile (· ≠ '<') =
        sel.email ++ ['>'] := by
      apply List.takeWhile_eq_self_iff.mpr
      intro c hc
      rcases List.mem_append.mp hc with h | h
      · exact hemP1 c h
      · simp only [List.mem_singleton] at h
        subst h
        decide
    have hpart1t : (sel.email ++ ['>']).takeWhile (· ≠ '>') = sel.email := by
      rw [List.takeWhile_append, List.takeWhile_eq_self_iff.mpr hemP2]
      simp
    have hp0s : pyStrip (sel.display_name ++ [' ']) = sel.display_name :=
      pyStrip_append_space hd hdn_strip
    rw [if_pos hcond, hpart0, hdw, hp0s]
    simp only [List.tail_cons]
    rw [htw1, hpart1t, hemail_strip, if_pos hd, if_neg hd]

/-- C6 witness: the round-trip theorem instantiated at a concrete
configuration, recipient list, reply-to choice, subject and body. -/
theorem generate_parse_roundtrip_witness :
    parse_template (generate_template twoReplyConfig [lit "a@b.c"] [] []
        (some (lit "Personal")) (some (lit "alias@example.com")) (some (lit "Hi"))
        (some (lit "Body")) none) =
      .ok { «to» := [lit "a@b.c"], cc := [], bcc := [],
            from_addr := lit "user@example.com", from_name := none,
            reply_to := some (lit "alias@example.com"),
            subject := lit "Hi", body := lit "Body", cancelled := false } := by
  have h := generate_parse_roundtrip twoReplyConfig [lit "a@b.c"] [] []
    (lit "Personal") twoReplyIdentity [] [] [lit "user@example.com"] []
    (lit "alias@example.com") (lit "Hi") (lit "Body")
    (by decide) (by decide) (by decide) (by decide) (by decide) (by decide)
    (by decide) (by decide) (by decide) (by decide) (by decide) (by decide)
    (by decide) (by decide) (by decide) (by decide) (by decide) (by decide)
    (by decide) (by decide) (by decide) (by decide) (by decide) (by decide)
    (by decide) (by decide) (by decide) (by decide) (by decide) (by decide)
  exact h
